import Mathlib

/-!
# Backup / restore driver of longhorn-manager (`engineapi/backups.go`)

A shallow embedding of the functions of `engineapi/backups.go` and theorems about them.

Conventions of the embedding.

* A Go `error` is a value of `GoError`; the `nil` error is `none : Option GoError`.
* A Go function returning `(T, error)` returns a pair; a Go slice that may be `nil` is an
  `Option (List _)`, with `none` for `nil` and `some []` for an empty, non-nil slice.
* A Go `map[string]V` is a `GoMap V`: a list of entries whose keys are pairwise distinct. The
  order of the entry list stands for the order in which a `range` loop visits the map in one run;
  Go leaves that order unspecified, and every theorem quantifies over all maps, hence over all
  orders. A map that may be `nil` is an `Option (GoMap V)`.
* Code that `backups.go` imports but that is not part of the file (packages `types`, `util`,
  `encoding/json`, the executor, the methods of `EngineBinary` defined elsewhere) is a parameter
  of the embedding.
-/

namespace Longhorn

/-! ## Go values -/

/-- Go `error` values, as far as `backups.go` builds and inspects them. -/
inductive GoError where
  /-- An error made by `errors.New`, `errors.Errorf` or `fmt.Errorf`, or handed in from outside. -/
  | msg (text : String)
  /-- The result of `errors.Wrapf cause context`. -/
  | wrap (cause : GoError) (context : String)
  /-- A `TaskError` returned as an error: the replica errors as (address, message) pairs. -/
  | task (replicaErrors : List (String × String))
  deriving DecidableEq, Repr

/-- A Go `map[string]V` that is not `nil`. -/
structure GoMap (V : Type) where
  /-- The entries, in the order a `range` loop visits them in this run. -/
  entries : List (String × V)
  /-- A map holds each key once. -/
  nodupKeys : (entries.map Prod.fst).Nodup

namespace GoMap

/-- The keys of the map, in `range` order. -/
def keys {V : Type} (m : GoMap V) : List String := m.entries.map Prod.fst

/-- The two-result index expression `v, ok := m[k]`. -/
def get? {V : Type} (m : GoMap V) (k : String) : Option V := m.entries.lookup k

/-- The map with no entries. -/
def empty {V : Type} : GoMap V := ⟨[], List.nodup_nil⟩

/-- The value of a `map[string]string` under `k` is empty or absent: `m[k] == ""`. -/
def blank (m : GoMap String) (k : String) : Prop :=
  m.get? k = none ∨ m.get? k = some ""

instance (m : GoMap String) (k : String) : Decidable (m.blank k) :=
  inferInstanceAs (Decidable (m.get? k = none ∨ m.get? k = some ""))

/-- The value read by `m[k]`: the stored value, or `""` when the key is absent. -/
def value (m : GoMap String) (k : String) : String := (m.get? k).getD ""

end GoMap

/-- The index expression `m[k]` on a `map[string]string` that may be `nil`: the value stored
under `k`, or the zero value `""` when the key is absent or the map is `nil`. -/
def mapIndex (m : Option (GoMap String)) (k : String) : String :=
  match m with
  | none => ""
  | some m => (m.get? k).getD ""

/-- The keys a `range` loop over a map that may be `nil` visits, in order: none for `nil`. -/
def rangeKeys {V : Type} (m : Option (GoMap V)) : List String :=
  match m with
  | none => []
  | some m => m.keys

/-- The entries a `range` loop over a map that may be `nil` visits, in order. -/
def rangeEntries {V : Type} (m : Option (GoMap V)) : List (String × V) :=
  match m with
  | none => []
  | some m => m.entries

/-- The verb `%v` of package `fmt` applied to a `[]string`: the elements separated by one space,
in square brackets. -/
def fmtStrings (xs : List String) : String := "[" ++ " ".intercalate xs ++ "]"

/-- The call `sort.Strings`: the strings in ascending order. Go compares strings byte by byte;
on UTF-8 text, which is what the JSON decoder produces, that is the order of the code points,
the order `≤` of `String`. The order has no ties between distinct strings, so the result does
not depend on the sorting algorithm. -/
def sortStrings (xs : List String) : List String :=
  xs.insertionSort (fun a b => a ≤ b)

/-! ## Imported packages -/

/-- Package `types` of longhorn-manager, as far as `backups.go` uses it. The package is not part
of the file: its constants and functions are parameters. -/
structure Types where
  BackupStoreTypeS3 : String
  BackupStoreTypeCIFS : String
  BackupStoreTypeAZBlob : String
  AWSIAMRoleArn : String
  AWSAccessKey : String
  AWSSecretKey : String
  AWSEndPoint : String
  AWSCert : String
  CIFSUsername : String
  CIFSPassword : String
  AZBlobAccountName : String
  AZBlobAccountKey : String
  AZBlobEndpoint : String
  AZBlobCert : String
  HTTPSProxy : String
  HTTPProxy : String
  NOProxy : String
  VirtualHostedStyle : String
  /-- The function `types.BackupStoreRequireCredential`. -/
  BackupStoreRequireCredential : String → Bool
  /-- The function `types.ErrorIsNotFound`. -/
  ErrorIsNotFound : GoError → Bool
  /-- The function `types.GetEngineBinaryDirectoryOnHostForImage`. -/
  GetEngineBinaryDirectoryOnHostForImage : String → String

/-- Package `util` of longhorn-manager, as far as `backups.go` uses it. -/
structure Util where
  /-- The function `util.CheckBackupType`: the backend type of a target URL, or an error. -/
  CheckBackupType : String → Except GoError String
  /-- The function `util.ValidateName`: the name-format rule. -/
  ValidateName : String → Bool

/-! ## The credential environment -/

/-- One environment entry, `fmt.Sprintf("%s=%s", key, value)`. -/
def envEntry (key value : String) : String := key ++ "=" ++ value

/-- The function `getBackupCredentialEnv`: the environment variables as `KEY=VALUE` strings. -/
def getBackupCredentialEnv (T : Types) (U : Util) (backupTarget : String)
    (credential : Option (GoMap String)) : Option (List String) × Option GoError :=
  let envs : List String := []
  match U.CheckBackupType backupTarget with
  | .error err => (some envs, some err)
  | .ok backupType =>
    if !T.BackupStoreRequireCredential backupType || credential.isNone then
      (some envs, none)
    else if backupType = T.BackupStoreTypeS3 then
      let missingKeys : List String := []
      let missingKeys :=
        if mapIndex credential T.AWSAccessKey = "" then missingKeys ++ [T.AWSAccessKey]
        else missingKeys
      let missingKeys :=
        if mapIndex credential T.AWSSecretKey = "" then missingKeys ++ [T.AWSSecretKey]
        else missingKeys
      if mapIndex credential T.AWSIAMRoleArn = "" ∧ missingKeys.length > 0 then
        (none, some (.msg ("could not backup to " ++ backupType ++ ", missing "
          ++ fmtStrings missingKeys ++ " in the secret")))
      else
        let envs :=
          if missingKeys.length = 0 then
            envs ++ [envEntry T.AWSAccessKey (mapIndex credential T.AWSAccessKey)]
              ++ [envEntry T.AWSSecretKey (mapIndex credential T.AWSSecretKey)]
          else envs
        let envs := envs ++ [envEntry T.AWSEndPoint (mapIndex credential T.AWSEndPoint)]
        let envs := envs ++ [envEntry T.AWSCert (mapIndex credential T.AWSCert)]
        let envs := envs ++ [envEntry T.HTTPSProxy (mapIndex credential T.HTTPSProxy)]
        let envs := envs ++ [envEntry T.HTTPProxy (mapIndex credential T.HTTPProxy)]
        let envs := envs ++ [envEntry T.NOProxy (mapIndex credential T.NOProxy)]
        let envs := envs ++
          [envEntry T.VirtualHostedStyle (mapIndex credential T.VirtualHostedStyle)]
        (some envs, none)
    else if backupType = T.BackupStoreTypeCIFS then
      let envs := envs ++ [envEntry T.CIFSUsername (mapIndex credential T.CIFSUsername)]
      let envs := envs ++ [envEntry T.CIFSPassword (mapIndex credential T.CIFSPassword)]
      (some envs, none)
    else if backupType = T.BackupStoreTypeAZBlob then
      let envs := envs ++
        [envEntry T.AZBlobAccountName (mapIndex credential T.AZBlobAccountName)]
      let envs := envs ++ [envEntry T.AZBlobAccountKey (mapIndex credential T.AZBlobAccountKey)]
      let envs := envs ++ [envEntry T.AZBlobEndpoint (mapIndex credential T.AZBlobEndpoint)]
      let envs := envs ++ [envEntry T.AZBlobCert (mapIndex credential T.AZBlobCert)]
      let envs := envs ++ [envEntry T.HTTPSProxy (mapIndex credential T.HTTPSProxy)]
      let envs := envs ++ [envEntry T.HTTPProxy (mapIndex credential T.HTTPProxy)]
      let envs := envs ++ [envEntry T.NOProxy (mapIndex credential T.NOProxy)]
      (some envs, none)
    else
      (some envs, none)

/-! ## Records decoded from the engine binary's output

The record types are declared in `engineapi/types.go` and in the API package; only the fields
that `backups.go` reads are kept. -/

/-- The type `Backup`: one backup's metadata. -/
structure Backup where
  Name : String
  URL : String
  SnapshotName : String
  deriving DecidableEq, Repr

/-- The type `BackupVolume`: the store's index of one volume. `backups.go` reads the fields
`Messages` and `Backups`, both maps that are `nil` when the output has no such field. -/
structure BackupVolume where
  Name : String
  Messages : Option (GoMap String)
  Backups : Option (GoMap (Option Backup))

/-- The type `ConfigMetadata`: the result of the `backup head` probe. -/
structure ConfigMetadata where
  ModificationTime : String
  deriving DecidableEq, Repr

/-- The type `BackupCreateInfo`: the answer of `backup create`. -/
structure BackupCreateInfo where
  BackupID : String
  ReplicaAddress : String
  deriving DecidableEq, Repr

/-- The type `longhorn.EngineBackupStatus`: the answer of `backup status`. -/
structure EngineBackupStatus where
  Progress : Int
  BackupURL : String
  Error : String
  SnapshotName : String
  State : String
  ReplicaAddress : String
  deriving DecidableEq, Repr

/-- The type `longhorn.Engine`; `backups.go` only passes it on. -/
structure Engine where
  Name : String
  deriving DecidableEq, Repr

/-- The type `longhorn.SnapshotInfo`; `backups.go` only tests a pointer to it against `nil`. -/
structure SnapshotInfo where
  Name : String
  deriving DecidableEq, Repr

/-- The type `EngineVersionDetails`, with the field `backups.go` reads. -/
structure EngineVersionDetails where
  CLIAPIVersion : Int
  deriving DecidableEq, Repr

/-- The type `EngineVersion`, with the field `backups.go` reads. -/
structure EngineVersion where
  ClientVersion : EngineVersionDetails
  deriving DecidableEq, Repr

/-! ## Names imported from outside the repository -/

/-- What `backups.go` takes from the Go standard library and from third-party modules:
`encoding/json` (one decoder per target type, since `json.Unmarshal` is driven by the type of its
target), `path/filepath`, the executor of `go-common-libs`, and constants of `backupstore`,
`go-common-libs` and `longhorn-engine`. -/
structure Extern where
  /-- The call `json.Unmarshal` into a `map[string]struct{}`. -/
  unmarshalVolumeNames : String → Except GoError (GoMap Unit)
  /-- The call `json.Unmarshal` into a `map[string]*BackupVolume`; a `null` value gives a `nil`
  pointer. -/
  unmarshalBackupVolumes : String → Except GoError (GoMap (Option BackupVolume))
  /-- The call `json.Unmarshal` into a `*BackupVolume`. -/
  unmarshalBackupVolume : String → Except GoError BackupVolume
  /-- The call `json.Unmarshal` into a `*Backup`. -/
  unmarshalBackup : String → Except GoError Backup
  /-- The call `json.Unmarshal` into a `*ConfigMetadata`. -/
  unmarshalConfigMetadata : String → Except GoError ConfigMetadata
  /-- The call `json.Unmarshal` into a `*BackupCreateInfo`. -/
  unmarshalBackupCreateInfo : String → Except GoError BackupCreateInfo
  /-- The call `json.Unmarshal` into a `*longhorn.EngineBackupStatus`. -/
  unmarshalEngineBackupStatus : String → Except GoError EngineBackupStatus
  /-- The call `json.Unmarshal` into a `*TaskError`: the replica errors, or the decode error. -/
  unmarshalTaskError : String → Except GoError (List (String × String))
  /-- The call `filepath.Join` on two elements. -/
  filepathJoin : String → String → String
  /-- The call `lhexec.NewExecutor().Execute envs binary args timeout`: the captured output and
  the execution error. -/
  Execute : List String → String → List String → Int → String × Option GoError
  /-- The constant `lhtypes.ExecuteNoTimeout`. -/
  ExecuteNoTimeout : Int
  /-- The constant `btypes.MessageTypeError`, as a string. -/
  MessageTypeError : String
  /-- The constant `etypes.VolumeHeadName`. -/
  VolumeHeadName : String
  /-- The function `backupstore.EncodeBackupURL backupName volumeName destURL`. -/
  EncodeBackupURL : String → String → String → String

/-! ## Decoding the catalog -/

/-- A run of a Go function: it returns, or it panics at run time. -/
inductive Outcome (α : Type) where
  | returns (value : α)
  /-- A run-time panic, here always the dereference of a `nil` pointer. -/
  | panics
  deriving DecidableEq, Repr

/-- The function `parseBackupVolumeNamesList`: the backup volume names as a sorted slice. -/
def parseBackupVolumeNamesList (U : Util) (X : Extern) (output : String) :
    Option (List String) × Option GoError :=
  match X.unmarshalVolumeNames output with
  | .error err =>
    (none, some (.wrap err ("error parsing backup volume names: \n" ++ output)))
  | .ok data =>
    let volumeNames : List String := []
    let volumeNames := data.keys.foldl
      (fun volumeNames volumeName =>
        if U.ValidateName volumeName then volumeNames ++ [volumeName] else volumeNames)
      volumeNames
    (some (sortStrings volumeNames), none)

/-- The function `parseBackupNamesList`: the backup names of one volume as a sorted slice. The
entry of the volume is a pointer; reading `volumeData.Messages` through a `nil` pointer panics. -/
def parseBackupNamesList (X : Extern) (output volumeName : String) :
    Outcome (Option (List String) × Option GoError) :=
  match X.unmarshalBackupVolumes output with
  | .error err =>
    .returns (none, some (.wrap err ("error parsing backup names: \n" ++ output)))
  | .ok data =>
    match data.get? volumeName with
    | none =>
      .returns (none,
        some (.msg ("cannot find the volume name " ++ volumeName ++ " in the data")))
    | some none => .panics
    | some (some volumeData) =>
      let backupNames : List String := []
      if mapIndex volumeData.Messages X.MessageTypeError ≠ "" then
        .returns (some backupNames,
          some (.msg (mapIndex volumeData.Messages X.MessageTypeError)))
      else
        let backupNames := (rangeKeys volumeData.Backups).foldl
          (fun backupNames backupName => backupNames ++ [backupName]) backupNames
        .returns (some (sortStrings backupNames), none)

/-- The function `parseBackupVolumeConfig`. -/
def parseBackupVolumeConfig (X : Extern) (output : String) :
    Option BackupVolume × Option GoError :=
  match X.unmarshalBackupVolume output with
  | .error err =>
    (none, some (.wrap err ("error parsing one backup volume config: \n" ++ output)))
  | .ok backupVolume => (some backupVolume, none)

/-- The function `parseBackupConfig`. -/
def parseBackupConfig (X : Extern) (output : String) : Option Backup × Option GoError :=
  match X.unmarshalBackup output with
  | .error err => (none, some (.wrap err ("error parsing one backup config: \n" ++ output)))
  | .ok backup => (some backup, none)

/-- The function `parseConfigMetadata`. -/
def parseConfigMetadata (X : Extern) (output : String) :
    Option ConfigMetadata × Option GoError :=
  match X.unmarshalConfigMetadata output with
  | .error err => (none, some (.wrap err ("error parsing config metadata: \n" ++ output)))
  | .ok metadata => (some metadata, none)

/-! ## The backup target client -/

/-- The type `BackupTargetClient`. -/
structure BackupTargetClient where
  Image : String
  URL : String
  Credential : Option (GoMap String)
  ExecuteTimeout : Int

namespace BackupTargetClient

/-- The method `LonghornEngineBinary`: the path of the engine binary of the client's image. -/
def LonghornEngineBinary (T : Types) (X : Extern) (btc : BackupTargetClient) : String :=
  X.filepathJoin (T.GetEngineBinaryDirectoryOnHostForImage btc.Image) "longhorn"

/-- The method `ExecuteEngineBinary`: one run of the engine binary under the client's timeout. -/
def ExecuteEngineBinary (T : Types) (U : Util) (X : Extern) (btc : BackupTargetClient)
    (args : List String) : String × Option GoError :=
  match getBackupCredentialEnv T U btc.URL btc.Credential with
  | (_, some err) => ("", some err)
  | (envs, none) =>
    X.Execute (envs.getD []) (btc.LonghornEngineBinary T X) args btc.ExecuteTimeout

/-- The method `ExecuteEngineBinaryWithoutTimeout`: one run of the engine binary with no
timeout. -/
def ExecuteEngineBinaryWithoutTimeout (T : Types) (U : Util) (X : Extern)
    (btc : BackupTargetClient) (args : List String) : String × Option GoError :=
  match getBackupCredentialEnv T U btc.URL btc.Credential with
  | (_, some err) => ("", some err)
  | (envs, none) =>
    X.Execute (envs.getD []) (btc.LonghornEngineBinary T X) args X.ExecuteNoTimeout

/-- The method `BackupVolumeNameList`: the list of backup volume names. -/
def BackupVolumeNameList (T : Types) (U : Util) (X : Extern) (btc : BackupTargetClient) :
    Option (List String) × Option GoError :=
  match btc.ExecuteEngineBinary T U X ["backup", "ls", "--volume-only", btc.URL] with
  | (_, some err) =>
    if T.ErrorIsNotFound err then (none, none)
    else (none, some (.wrap err "error listing backup volume names"))
  | (output, none) => parseBackupVolumeNamesList U X output

/-- The method `BackupNameList`: the list of backup names of one volume. The parameters `destURL`
and `credential` are not used by the method. -/
def BackupNameList (T : Types) (U : Util) (X : Extern) (btc : BackupTargetClient)
    (_destURL volumeName : String) (_credential : Option (GoMap String)) :
    Outcome (Option (List String) × Option GoError) :=
  if volumeName = "" then .returns (none, none)
  else
    match btc.ExecuteEngineBinary T U X ["backup", "ls", "--volume", volumeName, btc.URL] with
    | (_, some err) =>
      if T.ErrorIsNotFound err then .returns (none, none)
      else .returns (none, some (.wrap err ("error listing volume " ++ volumeName ++ " backup")))
    | (output, none) => parseBackupNamesList X output volumeName

/-- The method `BackupVolumeDelete`: deletes the backup volume from the remote backup target. -/
def BackupVolumeDelete (T : Types) (U : Util) (X : Extern) (btc : BackupTargetClient)
    (_destURL volumeName : String) (_credential : Option (GoMap String)) : Option GoError :=
  match btc.ExecuteEngineBinaryWithoutTimeout T U X
      ["backup", "rm", "--volume", volumeName, btc.URL] with
  | (_, some err) =>
    if T.ErrorIsNotFound err then none
    else some (.wrap err "error deleting backup volume")
  | (_, none) => none

/-- The method `BackupVolumeGet`: inspects a backup volume config. -/
def BackupVolumeGet (T : Types) (U : Util) (X : Extern) (btc : BackupTargetClient)
    (backupVolumeURL : String) (_credential : Option (GoMap String)) :
    Option BackupVolume × Option GoError :=
  match btc.ExecuteEngineBinary T U X ["backup", "inspect-volume", backupVolumeURL] with
  | (_, some err) =>
    if T.ErrorIsNotFound err then (none, none)
    else (none, some (.wrap err ("error getting backup volume config " ++ backupVolumeURL)))
  | (output, none) => parseBackupVolumeConfig X output

/-- The method `BackupGet`: inspects a backup config. -/
def BackupGet (T : Types) (U : Util) (X : Extern) (btc : BackupTargetClient)
    (backupConfigURL : String) (_credential : Option (GoMap String)) :
    Option Backup × Option GoError :=
  match btc.ExecuteEngineBinary T U X ["backup", "inspect", backupConfigURL] with
  | (_, some err) =>
    (none, some (.wrap err ("error getting backup config " ++ backupConfigURL)))
  | (output, none) => parseBackupConfig X output

/-- The method `BackupConfigMetaGet`: the config metadata at a URL. -/
def BackupConfigMetaGet (T : Types) (U : Util) (X : Extern) (btc : BackupTargetClient)
    (url : String) (_credential : Option (GoMap String)) :
    Option ConfigMetadata × Option GoError :=
  match btc.ExecuteEngineBinary T U X ["backup", "head", url] with
  | (_, some err) =>
    if T.ErrorIsNotFound err then (none, none)
    else (none, some (.wrap err ("error getting config metadata " ++ url)))
  | (output, none) => parseConfigMetadata X output

/-- The method `BackupDelete`: deletes the backup from the remote backup target. -/
def BackupDelete (T : Types) (U : Util) (X : Extern) (btc : BackupTargetClient)
    (backupURL : String) (_credential : Option (GoMap String)) : Option GoError :=
  match btc.ExecuteEngineBinaryWithoutTimeout T U X ["backup", "rm", backupURL] with
  | (_, some err) =>
    if T.ErrorIsNotFound err then none
    else some (.wrap err ("error deleting backup " ++ backupURL))
  | (_, none) => none

end BackupTargetClient

/-! ## The engine binary

The methods `SnapshotGet`, `VersionGet`, `ExecuteEngineBinary` and
`ExecuteEngineBinaryWithoutTimeout` of `EngineBinary` are defined in other files of the package;
they are fields of the record below. What a method of `backups.go` does to the outside is
recorded as a list of events, in the order of the calls. -/

/-- The type `EngineBinary`, with the methods `backups.go` calls. `VersionGet` is taken to return
a version whose `ClientVersion` is set whenever it returns no error. -/
structure EngineBinary where
  volumeName : String
  SnapshotGet : Option Engine → String → Except GoError (Option SnapshotInfo)
  VersionGet : Option Engine → Bool → Except GoError EngineVersion
  ExecuteEngineBinary : List String → String × Option GoError
  ExecuteEngineBinaryWithoutTimeout : List String → List String → String × Option GoError

/-- A call that leaves `backups.go`. -/
inductive Event where
  /-- The snapshot lookup `e.SnapshotGet(_, snapName)`. -/
  | snapshotGet (snapName : String)
  /-- The version query `e.VersionGet(_, clientOnly)`. -/
  | versionGet (clientOnly : Bool)
  /-- The build of the credential environment for a target. -/
  | credentialEnv (backupTarget : String)
  /-- The run `e.ExecuteEngineBinary(args...)`. -/
  | execute (args : List String)
  /-- The run `e.ExecuteEngineBinaryWithoutTimeout(envs, args...)`. -/
  | executeWithoutTimeout (envs args : List String)
  deriving DecidableEq, Repr

/-- The values of the type `longhorn.BackupState` that `backups.go` returns. -/
inductive BackupState where
  | InProgress
  | Completed
  | Error
  | Unknown
  deriving DecidableEq, Repr

/-- The constant `backupStateInProgress`. -/
def backupStateInProgress : String := "in_progress"

/-- The constant `backupStateComplete`. -/
def backupStateComplete : String := "complete"

/-- The constant `backupStateError`. -/
def backupStateError : String := "error"

/-- The function `ConvertEngineBackupState`: the engine's backup state as a Backup CR state. -/
def ConvertEngineBackupState (state : String) : BackupState :=
  if state = backupStateInProgress then .InProgress
  else if state = backupStateComplete then .Completed
  else if state = backupStateError then .Error
  else .Unknown

namespace EngineBinary

/-- The arguments of `backup create` that `SnapshotBackup` builds once the version is known. -/
def snapshotBackupArgs (cliVersionFour : Int) (version : EngineVersion)
    (snapName backupName backupTarget backingImageName backingImageChecksum : String)
    (labels : Option (GoMap String)) : List String :=
  let args := ["backup", "create", "--dest", backupTarget]
  let args :=
    if backingImageName ≠ "" then
      let args := args ++ ["--backing-image-name", backingImageName]
      if version.ClientVersion.CLIAPIVersion ≤ cliVersionFour then
        args ++ ["--backing-image-url", "deprecated-field"]
      else if backingImageChecksum ≠ "" then
        args ++ ["--backing-image-checksum", backingImageChecksum]
      else args
    else args
  let args :=
    if backupName ≠ "" ∧ version.ClientVersion.CLIAPIVersion > cliVersionFour then
      args ++ ["--backup-name", backupName]
    else args
  let args := (rangeEntries labels).foldl
    (fun args kv => args ++ ["--label", kv.1 ++ "=" ++ kv.2]) args
  args ++ [snapName]

/-- The method `SnapshotBackup`: the backup ID, the replica address and the error, with the
events of the call. `cliVersionFour` is the constant `CLIVersionFour` of the package. -/
def SnapshotBackup (T : Types) (U : Util) (X : Extern) (cliVersionFour : Int)
    (e : EngineBinary) (_engine : Option Engine)
    (snapName backupName backupTarget backingImageName backingImageChecksum
      _compressionMethod : String) (_concurrentLimit : Int) (_storageClassName : String)
    (labels credential _parameters : Option (GoMap String)) :
    (String × String × Option GoError) × List Event :=
  if snapName = X.VolumeHeadName then
    (("", "", some (.msg ("invalid operation: cannot backup " ++ X.VolumeHeadName))), [])
  else
    let events := [Event.snapshotGet snapName]
    match e.SnapshotGet none snapName with
    | .error err =>
      (("", "", some (.wrap err
        ("error getting snapshot '" ++ snapName ++ "', volume '" ++ e.volumeName ++ "'"))),
        events)
    | .ok none =>
      (("", "", some (.msg
        ("could not find snapshot '" ++ snapName ++ "' to backup, volume '"
          ++ e.volumeName ++ "'"))), events)
    | .ok (some _) =>
      let events := events ++ [Event.versionGet true]
      match e.VersionGet none true with
      | .error err => (("", "", some err), events)
      | .ok version =>
        let args := snapshotBackupArgs cliVersionFour version snapName backupName backupTarget
          backingImageName backingImageChecksum labels
        let events := events ++ [Event.credentialEnv backupTarget]
        match getBackupCredentialEnv T U backupTarget credential with
        | (_, some err) => (("", "", some err), events)
        | (envs, none) =>
          let events := events ++ [Event.executeWithoutTimeout (envs.getD []) args]
          match e.ExecuteEngineBinaryWithoutTimeout (envs.getD []) args with
          | (_, some err) => (("", "", some err), events)
          | (output, none) =>
            match X.unmarshalBackupCreateInfo output with
            | .error err => (("", "", some err), events)
            | .ok backupCreateInfo =>
              ((backupCreateInfo.BackupID, backupCreateInfo.ReplicaAddress, none), events)

/-- The method `SnapshotBackupStatus`: the status record and the error, with the events of the
call. -/
def SnapshotBackupStatus (X : Extern) (e : EngineBinary) (engine : Option Engine)
    (backupName replicaAddress replicaName : String) :
    (Option EngineBackupStatus × Option GoError) × List Event :=
  let args := ["backup", "status", backupName]
  let args := if replicaAddress ≠ "" then args ++ ["--replica", replicaAddress] else args
  let run (args : List String) (events : List Event) :
      (Option EngineBackupStatus × Option GoError) × List Event :=
    let events := events ++ [Event.execute args]
    match e.ExecuteEngineBinary args with
    | (_, some err) => ((none, some err), events)
    | (output, none) =>
      match X.unmarshalEngineBackupStatus output with
      | .error err => ((none, some err), events)
      | .ok engineBackupStatus => ((some engineBackupStatus, none), events)
  if replicaName ≠ "" then
    match e.VersionGet engine true with
    | .error err => ((none, some err), [Event.versionGet true])
    | .ok version =>
      let args :=
        if version.ClientVersion.CLIAPIVersion ≥ 9 then
          args ++ ["--replica-instance-name", replicaName]
        else args
      run args [Event.versionGet true]
  else run args []

/-- The method `BackupRestore`: the error, with the events of the call. -/
def BackupRestore (T : Types) (U : Util) (X : Extern) (e : EngineBinary)
    (_engine : Option Engine) (backupTarget backupName backupVolumeName lastRestored : String)
    (credential : Option (GoMap String)) (_concurrentLimit : Int) :
    Option GoError × List Event :=
  let backup := X.EncodeBackupURL backupName backupVolumeName backupTarget
  let events := [Event.credentialEnv backupTarget]
  match getBackupCredentialEnv T U backupTarget credential with
  | (_, some err) => (some err, events)
  | (envs, none) =>
    let args := ["backup", "restore", backup]
    let args :=
      if lastRestored ≠ "" then args ++ ["--incrementally", "--last-restored", lastRestored]
      else args
    let events := events ++ [Event.executeWithoutTimeout (envs.getD []) args]
    match e.ExecuteEngineBinaryWithoutTimeout (envs.getD []) args with
    | (output, some err) =>
      match X.unmarshalTaskError output with
      | .error _jsonErr => (some err, events)
      | .ok taskErr => (some (.task taskErr), events)
    | (_, none) => (none, events)

end EngineBinary

/-! ## The argument list of `backup create`, as the specification gives it -/

/-- The backing-image arguments of `backup create` in the words of the specification: nothing
without a backing image name; otherwise the name, followed by the placeholder URL when the client
API version `v` is at most `CLIVersionFour`, or by the checksum when `v` is above it and the
checksum is non-empty. -/
def specBackingImageArgs (cliVersionFour v : Int)
    (backingImageName backingImageChecksum : String) : List String :=
  if backingImageName = "" then []
  else if v ≤ cliVersionFour then
    ["--backing-image-name", backingImageName, "--backing-image-url", "deprecated-field"]
  else if backingImageChecksum = "" then ["--backing-image-name", backingImageName]
  else ["--backing-image-name", backingImageName, "--backing-image-checksum",
    backingImageChecksum]

/-- The argument list of `backup create` in the words of the specification:
`backup create --dest <url> [--backing-image-name N] [--backing-image-checksum C |
--backing-image-url deprecated-field] [--backup-name B] [--label K=V]* <snapshot>`, with the
backup name passed only above `CLIVersionFour`. -/
def specBackupCreateArgs (cliVersionFour v : Int)
    (snapName backupName backupTarget backingImageName backingImageChecksum : String)
    (labels : List (String × String)) : List String :=
  ["backup", "create", "--dest", backupTarget]
    ++ specBackingImageArgs cliVersionFour v backingImageName backingImageChecksum
    ++ (if backupName ≠ "" ∧ v > cliVersionFour then ["--backup-name", backupName] else [])
    ++ labels.flatMap (fun kv => ["--label", kv.1 ++ "=" ++ kv.2])
    ++ [snapName]

/-! ## A sample installation

The packages `types` and `util` are not part of `backups.go`, and the engine binary and the
JSON decoder answer from outside. The theorems below hold for every choice of them. The
definitions of this section fix one choice, on which the functions can be evaluated. -/

/-- Whether `sub` occurs in `s` as a contiguous run, as `strings.Contains` decides it. -/
def containsChars (s sub : List Char) : Bool :=
  s.tails.any (fun t => sub.isPrefixOf t)

/-- The text of an error in the sample installation; a wrapped error prints its context, a colon
and its cause, a task error prints its replica errors. -/
def sampleErrorText : GoError → String
  | .msg text => text
  | .wrap cause context => context ++ ": " ++ sampleErrorText cause
  | .task replicaErrors =>
    "; ".intercalate (replicaErrors.map (fun re => re.1 ++ ": " ++ re.2))

/-- Modelled from the spec: package `types` of longhorn-manager, which `backups.go` imports and
which is not among the sources. The spec names the backends that take credentials (S3-like,
network-share-like, blob-like) and the not-found classification of an execution error; the
strings are those of the environment variables the engine binary reads. An error counts as
not-found when its text contains `cannot find`. -/
def sampleTypes : Types where
  BackupStoreTypeS3 := "s3"
  BackupStoreTypeCIFS := "cifs"
  BackupStoreTypeAZBlob := "azblob"
  AWSIAMRoleArn := "AWS_IAM_ROLE_ARN"
  AWSAccessKey := "AWS_ACCESS_KEY_ID"
  AWSSecretKey := "AWS_SECRET_ACCESS_KEY"
  AWSEndPoint := "AWS_ENDPOINTS"
  AWSCert := "AWS_CERT"
  CIFSUsername := "CIFS_USERNAME"
  CIFSPassword := "CIFS_PASSWORD"
  AZBlobAccountName := "AZBLOB_ACCOUNT_NAME"
  AZBlobAccountKey := "AZBLOB_ACCOUNT_KEY"
  AZBlobEndpoint := "AZBLOB_ENDPOINT"
  AZBlobCert := "AZBLOB_CERT"
  HTTPSProxy := "HTTPS_PROXY"
  HTTPProxy := "HTTP_PROXY"
  NOProxy := "NO_PROXY"
  VirtualHostedStyle := "VIRTUAL_HOSTED_STYLE"
  BackupStoreRequireCredential := fun backupType =>
    decide (backupType = "s3") || decide (backupType = "cifs") || decide (backupType = "azblob")
  ErrorIsNotFound := fun err =>
    containsChars (sampleErrorText err).toList "cannot find".toList
  GetEngineBinaryDirectoryOnHostForImage := fun image =>
    "/var/lib/longhorn/engine-binaries/" ++ image

/-- Modelled from the spec: package `util` of longhorn-manager, which is not among the sources.
The backend type of a target is the scheme of its URL, the text before the first colon; a
target that starts with a colon has no scheme and is an error, a target without a colon has
the empty scheme. The name-format rule accepts a name of two or more characters that starts
with a letter or digit and goes on with letters, digits, `_`, `.` and `-`. -/
def sampleUtil : Util where
  CheckBackupType := fun backupTarget =>
    match backupTarget.toList with
    | ':' :: _ => .error (.msg "missing protocol scheme")
    | cs => if cs.contains ':' then .ok (String.mk (cs.takeWhile (fun c => c != ':'))) else .ok ""
  ValidateName := fun name =>
    match name.toList with
    | c :: d :: rest =>
      c.isAlphanum &&
        (d :: rest).all (fun x => x.isAlphanum || x == '_' || x == '.' || x == '-')
    | _ => false

/-- The answer of the sample store to `backup ls --volume-only`: an object with the keys `vol-b`,
`bad name` and `vol-a`. -/
def sampleVolumeNamesOutput : String :=
  "\x7b\"vol-b\":\x7b\x7d,\"bad name\":\x7b\x7d,\"vol-a\":\x7b\x7d\x7d"

/-- The object `sampleVolumeNamesOutput` decodes to. -/
def sampleVolumeNames : GoMap Unit :=
  ⟨[("vol-b", ()), ("bad name", ()), ("vol-a", ())], by decide⟩

/-- The answer of the sample store to `backup ls --volume vol-a`: the volume `vol-a` with the
backups `backup-2`, `bad name!` and `backup-1` and no messages. -/
def sampleCatalogOutput : String :=
  "\x7b\"vol-a\":\x7b\"Name\":\"vol-a\",\"Backups\":\x7b\"backup-2\":null,"
    ++ "\"bad name!\":null,\"backup-1\":null\x7d\x7d\x7d"

/-- The catalog `sampleCatalogOutput` decodes to. -/
def sampleCatalog : GoMap (Option BackupVolume) :=
  ⟨[("vol-a", some
      { Name := "vol-a"
        Messages := none
        Backups := some ⟨[("backup-2", none), ("bad name!", none), ("backup-1", none)],
          by decide⟩ })],
    by decide⟩

/-- The answer of the sample store to `backup ls --volume vol-c`: the volume `vol-c` with one
backup and an error message. -/
def sampleFailedCatalogOutput : String :=
  "\x7b\"vol-c\":\x7b\"Name\":\"vol-c\",\"Messages\":\x7b\"error\":\"volume.cfg is corrupt\"\x7d,"
    ++ "\"Backups\":\x7b\"backup-9\":null\x7d\x7d\x7d"

/-- The catalog `sampleFailedCatalogOutput` decodes to. -/
def sampleFailedCatalog : GoMap (Option BackupVolume) :=
  ⟨[("vol-c", some
      { Name := "vol-c"
        Messages := some ⟨[("error", "volume.cfg is corrupt")], by decide⟩
        Backups := some ⟨[("backup-9", none)], by decide⟩ })],
    by decide⟩

/-- The answer of the sample store to `backup ls --volume vol-n`: the key `vol-n` with the value
`null`. -/
def sampleNullCatalogOutput : String := "\x7b\"vol-n\":null\x7d"

/-- The catalog `sampleNullCatalogOutput` decodes to: the entry of `vol-n` is a `nil` pointer. -/
def sampleNullCatalog : GoMap (Option BackupVolume) :=
  ⟨[("vol-n", none)], by decide⟩

/-- The answer of the sample store to `backup ls --volume vol-e`: the volume `vol-e` with neither
a messages nor a backups field. -/
def sampleBareCatalogOutput : String := "\x7b\"vol-e\":\x7b\"Name\":\"vol-e\"\x7d\x7d"

/-- The catalog `sampleBareCatalogOutput` decodes to: both maps of the entry are `nil`. -/
def sampleBareCatalog : GoMap (Option BackupVolume) :=
  ⟨[("vol-e", some { Name := "vol-e", Messages := none, Backups := none })], by decide⟩

/-- The output of a restore that fails on one replica: a `TaskError` in JSON. -/
def sampleTaskErrorOutput : String :=
  "\x7b\"ReplicaErrors\":[\x7b\"Address\":\"tcp://10.42.0.7:10000\","
    ++ "\"Message\":\"no space left on device\"\x7d]\x7d"

/-- The replica errors `sampleTaskErrorOutput` decodes to. -/
def sampleTaskError : List (String × String) :=
  [("tcp://10.42.0.7:10000", "no space left on device")]

/-- The output of a `backup status` for a backup that is half done. -/
def sampleStatusOutput : String :=
  "\x7b\"progress\":50,\"state\":\"in_progress\",\"snapshotName\":\"snap-1\","
    ++ "\"replicaAddress\":\"tcp://10.42.0.7:10000\"\x7d"

/-- The status record `sampleStatusOutput` decodes to. -/
def sampleStatus : EngineBackupStatus where
  Progress := 50
  BackupURL := ""
  Error := ""
  SnapshotName := "snap-1"
  State := "in_progress"
  ReplicaAddress := "tcp://10.42.0.7:10000"

/-- The output of a `backup create` that succeeds. -/
def sampleCreateOutput : String :=
  "\x7b\"backupID\":\"backup-3\",\"replicaAddress\":\"tcp://10.42.0.7:10000\"\x7d"

/-- A sample of what comes from outside the repository. The decoder is tabulated on the sample
outputs and rejects every other text. The executor answers for a store that holds the volumes
`vol-a` (backups `backup-1`, `backup-2` and `bad name!`), `vol-c`, `vol-n` and `vol-e`: the
listings return the sample outputs, removing `backup-1` or `vol-a` succeeds, removing `backup-2` or `vol-c` is
denied, and any other backup, backup volume or config is reported as absent. -/
def sampleExtern : Extern where
  unmarshalVolumeNames := fun output =>
    if output = sampleVolumeNamesOutput then .ok sampleVolumeNames
    else .error (.msg "invalid character")
  unmarshalBackupVolumes := fun output =>
    if output = sampleCatalogOutput then .ok sampleCatalog
    else if output = sampleFailedCatalogOutput then .ok sampleFailedCatalog
    else if output = sampleNullCatalogOutput then .ok sampleNullCatalog
    else if output = sampleBareCatalogOutput then .ok sampleBareCatalog
    else .error (.msg "invalid character")
  unmarshalBackupVolume := fun _ => .error (.msg "invalid character")
  unmarshalBackup := fun _ => .error (.msg "invalid character")
  unmarshalConfigMetadata := fun _ => .error (.msg "invalid character")
  unmarshalBackupCreateInfo := fun output =>
    if output = sampleCreateOutput then .ok ⟨"backup-3", "tcp://10.42.0.7:10000"⟩
    else .error (.msg "invalid character")
  unmarshalEngineBackupStatus := fun output =>
    if output = sampleStatusOutput then .ok sampleStatus
    else .error (.msg "invalid character")
  unmarshalTaskError := fun output =>
    if output = sampleTaskErrorOutput then .ok sampleTaskError
    else .error (.msg "invalid character")
  filepathJoin := fun dir file => dir ++ "/" ++ file
  Execute := fun _envs _binary args _timeout =>
    match args with
    | ["backup", "ls", "--volume-only", _] => (sampleVolumeNamesOutput, none)
    | ["backup", "ls", "--volume", "vol-a", _] => (sampleCatalogOutput, none)
    | ["backup", "ls", "--volume", "vol-c", _] => (sampleFailedCatalogOutput, none)
    | ["backup", "ls", "--volume", "vol-n", _] => (sampleNullCatalogOutput, none)
    | ["backup", "ls", "--volume", "vol-e", _] => (sampleBareCatalogOutput, none)
    | ["backup", "rm", "s3://backupbucket@us-east-1/?backup=backup-1&volume=vol-a"] => ("", none)
    | ["backup", "rm", "s3://backupbucket@us-east-1/?backup=backup-2&volume=vol-a"] =>
      ("", some (.msg "exit status 1: access denied"))
    | ["backup", "rm", _] => ("", some (.msg "cannot find backup.cfg in backupstore"))
    | ["backup", "rm", "--volume", "vol-a", _] => ("", none)
    | ["backup", "rm", "--volume", "vol-c", _] =>
      ("", some (.msg "exit status 1: access denied"))
    | ["backup", "rm", "--volume", _, _] =>
      ("", some (.msg "cannot find volume.cfg in backupstore"))
    | ["backup", "inspect", _] => ("", some (.msg "cannot find backup.cfg in backupstore"))
    | ["backup", "inspect-volume", _] =>
      ("", some (.msg "cannot find volume.cfg in backupstore"))
    | ["backup", "head", _] => ("", some (.msg "cannot find volume.cfg in backupstore"))
    | _ => ("", some (.msg "exit status 1"))
  ExecuteNoTimeout := -1
  MessageTypeError := "error"
  VolumeHeadName := "volume-head"
  EncodeBackupURL := fun backupName volumeName destURL =>
    destURL ++ "?backup=" ++ backupName ++ "&volume=" ++ volumeName

/-- A sample client: an S3 target reached through an IAM role. -/
def sampleClient : BackupTargetClient where
  Image := "longhornio/longhorn-engine:v1.5.0"
  URL := "s3://backupbucket@us-east-1/"
  Credential := some ⟨[("AWS_IAM_ROLE_ARN", "arn:aws:iam::1:role/backup")], by decide⟩
  ExecuteTimeout := 60000000000

/-- A sample engine binary of the volume `vol-a` that reports the client API version
`cliAPIVersion`. It holds the snapshot `snap-1`. A `backup create` answers `sampleCreateOutput`.
A `backup status` answers `sampleStatusOutput`, unless the arguments hold
`--replica-instance-name` and the version is below 9: such a binary does not know the flag and
fails. The restore of `backup-1` succeeds, the restore of `backup-2` fails on one replica and
prints `sampleTaskErrorOutput`, and any other restore fails and prints plain text. -/
def sampleEngineBinary (cliAPIVersion : Int) : EngineBinary where
  volumeName := "vol-a"
  SnapshotGet := fun _engine snapName =>
    if snapName = "snap-1" then .ok (some ⟨"snap-1"⟩) else .ok none
  VersionGet := fun _engine _clientOnly => .ok ⟨⟨cliAPIVersion⟩⟩
  ExecuteEngineBinary := fun args =>
    match args with
    | "backup" :: "status" :: _ =>
      if args.contains "--replica-instance-name" ∧ cliAPIVersion < 9 then
        ("", some (.msg "flag provided but not defined: -replica-instance-name"))
      else (sampleStatusOutput, none)
    | _ => ("", some (.msg "exit status 1"))
  ExecuteEngineBinaryWithoutTimeout := fun _envs args =>
    match args with
    | "backup" :: "create" :: _ => (sampleCreateOutput, none)
    | "backup" :: "restore" :: url :: _ =>
      if url = "s3://backupbucket@us-east-1/?backup=backup-1&volume=vol-a" then ("", none)
      else if url = "s3://backupbucket@us-east-1/?backup=backup-2&volume=vol-a" then
        (sampleTaskErrorOutput, some (.msg "exit status 1"))
      else ("cannot find backup.cfg in backupstore", some (.msg "exit status 1"))
    | _ => ("", some (.msg "exit status 1"))

/-- The constant `CLIVersionFour` of the package, in the sample installation. -/
def sampleCLIVersionFour : Int := 4

/-! ## Theorems: the credential environment -/

theorem mapIndex_some (m : GoMap String) (k : String) : mapIndex (some m) k = m.value k := rfl

theorem value_eq_empty_iff (m : GoMap String) (k : String) : m.value k = "" ↔ m.blank k := by
  unfold GoMap.value GoMap.blank
  cases m.get? k <;> simp

/-- C1: for an S3 target and a non-nil credential map, `getBackupCredentialEnv` fails exactly
when the IAM role ARN is empty or absent and the access key or the secret key is empty or absent;
when it fails it returns a `nil` environment and the error
`could not backup to s3, missing [..] in the secret`, whose list holds the access-key name if the
access key is empty or absent, then the secret-key name if the secret key is empty or absent, and
nothing else. -/
theorem getBackupCredentialEnv_s3_fails_iff (T : Types) (U : Util) (backupTarget : String)
    (credential : GoMap String)
    (hS3 : U.CheckBackupType backupTarget = .ok T.BackupStoreTypeS3)
    (hReq : T.BackupStoreRequireCredential T.BackupStoreTypeS3 = true) :
    ((getBackupCredentialEnv T U backupTarget (some credential)).2 ≠ none ↔
      (credential.blank T.AWSIAMRoleArn ∧
        (credential.blank T.AWSAccessKey ∨ credential.blank T.AWSSecretKey))) ∧
    ((getBackupCredentialEnv T U backupTarget (some credential)).2 ≠ none →
      ∃ missing : List String,
        getBackupCredentialEnv T U backupTarget (some credential) =
          (none, some (.msg ("could not backup to " ++ T.BackupStoreTypeS3 ++ ", missing "
            ++ fmtStrings missing ++ " in the secret"))) ∧
        (∀ k, k ∈ missing ↔
          (k = T.AWSAccessKey ∧ credential.blank T.AWSAccessKey) ∨
            (k = T.AWSSecretKey ∧ credential.blank T.AWSSecretKey)) ∧
        (credential.blank T.AWSAccessKey → credential.blank T.AWSSecretKey →
          missing = [T.AWSAccessKey, T.AWSSecretKey])) := by
  simp only [← value_eq_empty_iff]
  unfold getBackupCredentialEnv
  simp only [hS3, hReq, mapIndex_some]
  by_cases ha : credential.value T.AWSAccessKey = "" <;>
  by_cases hs : credential.value T.AWSSecretKey = "" <;>
  by_cases hr : credential.value T.AWSIAMRoleArn = "" <;>
  simp [ha, hs, hr] <;>
  exact ⟨_, rfl, fun k => by simp⟩

/-- Witness of C1 on the sample installation: a credential map that holds only the access key. -/
theorem getBackupCredentialEnv_s3_fails_iff_witness :
    ((getBackupCredentialEnv sampleTypes sampleUtil "s3://backupbucket@us-east-1/"
        (some ⟨[("AWS_ACCESS_KEY_ID", "AKIA")], by decide⟩)).2 ≠ none ↔
      ((⟨[("AWS_ACCESS_KEY_ID", "AKIA")], by decide⟩ : GoMap String).blank
          sampleTypes.AWSIAMRoleArn ∧
        ((⟨[("AWS_ACCESS_KEY_ID", "AKIA")], by decide⟩ : GoMap String).blank
            sampleTypes.AWSAccessKey ∨
          (⟨[("AWS_ACCESS_KEY_ID", "AKIA")], by decide⟩ : GoMap String).blank
            sampleTypes.AWSSecretKey))) ∧
    getBackupCredentialEnv sampleTypes sampleUtil "s3://backupbucket@us-east-1/"
        (some ⟨[("AWS_ACCESS_KEY_ID", "AKIA")], by decide⟩) =
      (none, some (.msg
        "could not backup to s3, missing [AWS_SECRET_ACCESS_KEY] in the secret")) :=
  ⟨(getBackupCredentialEnv_s3_fails_iff sampleTypes sampleUtil "s3://backupbucket@us-east-1/"
      ⟨[("AWS_ACCESS_KEY_ID", "AKIA")], by decide⟩ rfl rfl).1, by decide⟩

/-- C2: for an S3 target and a non-nil credential map on which `getBackupCredentialEnv`
succeeds, the environment is the access-key entry and the secret-key entry when both values are
non-empty, and neither of them otherwise, followed by the six entries for endpoint, certificate,
HTTPS proxy, HTTP proxy, no-proxy and virtual-hosted-style, each with the credential's value or
the empty string. -/
theorem getBackupCredentialEnv_s3_envs (T : Types) (U : Util) (backupTarget : String)
    (credential : GoMap String)
    (hS3 : U.CheckBackupType backupTarget = .ok T.BackupStoreTypeS3)
    (hReq : T.BackupStoreRequireCredential T.BackupStoreTypeS3 = true)
    (hOk : (getBackupCredentialEnv T U backupTarget (some credential)).2 = none) :
    (getBackupCredentialEnv T U backupTarget (some credential)).1 =
      some ((if ¬ credential.blank T.AWSAccessKey ∧ ¬ credential.blank T.AWSSecretKey then
              [T.AWSAccessKey ++ "=" ++ credential.value T.AWSAccessKey,
                T.AWSSecretKey ++ "=" ++ credential.value T.AWSSecretKey]
            else [])
        ++ [T.AWSEndPoint ++ "=" ++ credential.value T.AWSEndPoint,
            T.AWSCert ++ "=" ++ credential.value T.AWSCert,
            T.HTTPSProxy ++ "=" ++ credential.value T.HTTPSProxy,
            T.HTTPProxy ++ "=" ++ credential.value T.HTTPProxy,
            T.NOProxy ++ "=" ++ credential.value T.NOProxy,
            T.VirtualHostedStyle ++ "=" ++ credential.value T.VirtualHostedStyle]) := by
  revert hOk
  simp only [← value_eq_empty_iff]
  unfold getBackupCredentialEnv
  simp only [hS3, hReq, mapIndex_some, envEntry]
  by_cases ha : credential.value T.AWSAccessKey = "" <;>
  by_cases hs : credential.value T.AWSSecretKey = "" <;>
  by_cases hr : credential.value T.AWSIAMRoleArn = "" <;>
  simp [ha, hs, hr]

/-- Witness of C2 on the sample installation: a credential map that holds only the IAM role. -/
theorem getBackupCredentialEnv_s3_envs_witness :
    (getBackupCredentialEnv sampleTypes sampleUtil sampleClient.URL sampleClient.Credential).1 =
      some ["AWS_ENDPOINTS=", "AWS_CERT=", "HTTPS_PROXY=", "HTTP_PROXY=", "NO_PROXY=",
        "VIRTUAL_HOSTED_STYLE="] :=
  (getBackupCredentialEnv_s3_envs sampleTypes sampleUtil "s3://backupbucket@us-east-1/"
    ⟨[("AWS_IAM_ROLE_ARN", "arn:aws:iam::1:role/backup")], by decide⟩ rfl rfl
    (by decide)).trans (by decide)

/-- C3, as stated, fails: with an empty, non-nil credential map a CIFS target and an AZBlob
target both get an environment and no error; every value of the environment is empty. -/
theorem getBackupCredentialEnv_cifs_azblob_empty_credential :
    getBackupCredentialEnv sampleTypes sampleUtil "cifs://fileserver/backups"
        (some GoMap.empty) =
      (some ["CIFS_USERNAME=", "CIFS_PASSWORD="], none) ∧
    getBackupCredentialEnv sampleTypes sampleUtil "azblob://backups@core.windows.net/"
        (some GoMap.empty) =
      (some ["AZBLOB_ACCOUNT_NAME=", "AZBLOB_ACCOUNT_KEY=", "AZBLOB_ENDPOINT=", "AZBLOB_CERT=",
        "HTTPS_PROXY=", "HTTP_PROXY=", "NO_PROXY="], none) := by
  decide

/-- C3, amended: for a CIFS target and for an AZBlob target that take credentials,
`getBackupCredentialEnv` never fails on a non-nil credential map. It returns the username and
password entries for CIFS, and the account name, account key, endpoint, certificate, HTTPS proxy,
HTTP proxy and no-proxy entries for AZBlob, each with the credential's value or the empty string
when the value is absent. The cases of the Go `switch` are distinct constants. -/
theorem getBackupCredentialEnv_cifs_azblob_envs (T : Types) (U : Util) (backupTarget : String)
    (credential : GoMap String) :
    (U.CheckBackupType backupTarget = .ok T.BackupStoreTypeCIFS →
      T.BackupStoreRequireCredential T.BackupStoreTypeCIFS = true →
      T.BackupStoreTypeCIFS ≠ T.BackupStoreTypeS3 →
      getBackupCredentialEnv T U backupTarget (some credential) =
        (some [T.CIFSUsername ++ "=" ++ credential.value T.CIFSUsername,
            T.CIFSPassword ++ "=" ++ credential.value T.CIFSPassword], none)) ∧
    (U.CheckBackupType backupTarget = .ok T.BackupStoreTypeAZBlob →
      T.BackupStoreRequireCredential T.BackupStoreTypeAZBlob = true →
      T.BackupStoreTypeAZBlob ≠ T.BackupStoreTypeS3 →
      T.BackupStoreTypeAZBlob ≠ T.BackupStoreTypeCIFS →
      getBackupCredentialEnv T U backupTarget (some credential) =
        (some [T.AZBlobAccountName ++ "=" ++ credential.value T.AZBlobAccountName,
            T.AZBlobAccountKey ++ "=" ++ credential.value T.AZBlobAccountKey,
            T.AZBlobEndpoint ++ "=" ++ credential.value T.AZBlobEndpoint,
            T.AZBlobCert ++ "=" ++ credential.value T.AZBlobCert,
            T.HTTPSProxy ++ "=" ++ credential.value T.HTTPSProxy,
            T.HTTPProxy ++ "=" ++ credential.value T.HTTPProxy,
            T.NOProxy ++ "=" ++ credential.value T.NOProxy], none)) := by
  constructor
  · intro hType hReq hS3
    unfold getBackupCredentialEnv
    simp [hType, hReq, hS3, mapIndex_some, envEntry]
  · intro hType hReq hS3 hCIFS
    unfold getBackupCredentialEnv
    simp [hType, hReq, hS3, hCIFS, mapIndex_some, envEntry]

/-- Witness of C3, amended, on the sample installation: a CIFS target with the username only and
an AZBlob target with the account name only. -/
theorem getBackupCredentialEnv_cifs_azblob_envs_witness :
    getBackupCredentialEnv sampleTypes sampleUtil "cifs://fileserver/backups"
        (some ⟨[("CIFS_USERNAME", "backup")], by decide⟩) =
      (some ["CIFS_USERNAME=backup", "CIFS_PASSWORD="], none) ∧
    getBackupCredentialEnv sampleTypes sampleUtil "azblob://backups@core.windows.net/"
        (some ⟨[("AZBLOB_ACCOUNT_NAME", "acct")], by decide⟩) =
      (some ["AZBLOB_ACCOUNT_NAME=acct", "AZBLOB_ACCOUNT_KEY=", "AZBLOB_ENDPOINT=",
        "AZBLOB_CERT=", "HTTPS_PROXY=", "HTTP_PROXY=", "NO_PROXY="], none) :=
  ⟨((getBackupCredentialEnv_cifs_azblob_envs sampleTypes sampleUtil "cifs://fileserver/backups"
      ⟨[("CIFS_USERNAME", "backup")], by decide⟩).1 rfl rfl (by decide)).trans (by decide),
   ((getBackupCredentialEnv_cifs_azblob_envs sampleTypes sampleUtil
      "azblob://backups@core.windows.net/"
      ⟨[("AZBLOB_ACCOUNT_NAME", "acct")], by decide⟩).2 rfl rfl (by decide)
        (by decide)).trans (by decide)⟩

/-! ## Theorems: decoding the catalog -/

theorem foldl_append_filter (p : String → Bool) (l init : List String) :
    l.foldl (fun acc k => if p k = true then acc ++ [k] else acc) init = init ++ l.filter p := by
  induction l generalizing init with
  | nil => simp
  | cons a l ih =>
    by_cases h : p a = true <;> simp [List.foldl_cons, ih, h]

theorem foldl_append_each (l init : List String) :
    l.foldl (fun acc k => acc ++ [k]) init = init ++ l := by
  induction l generalizing init with
  | nil => simp
  | cons a l ih => simp [List.foldl_cons, ih]

theorem sortStrings_perm (l : List String) : (sortStrings l).Perm l :=
  List.perm_insertionSort _ l

theorem mem_sortStrings (l : List String) (k : String) : k ∈ sortStrings l ↔ k ∈ l :=
  (sortStrings_perm l).mem_iff

theorem sortStrings_sorted (l : List String) : (sortStrings l).Sorted (· ≤ ·) :=
  List.sorted_insertionSort (fun a b : String => a ≤ b) l

/-- Sorting a list without repetitions gives a strictly ascending list. -/
theorem sortStrings_strict (l : List String) (h : l.Nodup) : (sortStrings l).Sorted (· < ·) :=
  (sortStrings_sorted l).lt_of_le ((sortStrings_perm l).nodup_iff.2 h)

/-- The result of `sort.Strings` does not depend on the order in which `range` visited the
map. -/
theorem sortStrings_eq_of_perm (l₁ l₂ : List String) (h : l₁.Perm l₂) :
    sortStrings l₁ = sortStrings l₂ :=
  List.eq_of_perm_of_sorted (((sortStrings_perm l₁).trans h).trans (sortStrings_perm l₂).symm)
    (sortStrings_sorted l₁) (sortStrings_sorted l₂)

theorem GoMap.get?_eq_none_iff {V : Type} (m : GoMap V) (k : String) :
    m.get? k = none ↔ k ∉ m.keys := by
  unfold GoMap.get? GoMap.keys
  rw [List.lookup_eq_none_iff]
  simp only [List.mem_map, bne_iff_ne, ne_eq]
  constructor
  · rintro h ⟨p, hp, rfl⟩
    exact h p hp rfl
  · intro h p hp heq
    exact h ⟨p, hp, heq.symm⟩

/-- C4: when the output decodes as an object, `parseBackupVolumeNamesList` returns no error and
a strictly ascending list whose elements are exactly the keys of the object that
`util.ValidateName` accepts; when the output does not decode, it returns a `nil` list and the
decode error wrapped with `error parsing backup volume names` and the output. -/
theorem parseBackupVolumeNamesList_sorted_valid_keys (U : Util) (X : Extern)
    (output : String) :
    (∀ data : GoMap Unit, X.unmarshalVolumeNames output = .ok data →
      ∃ volumeNames : List String,
        parseBackupVolumeNamesList U X output = (some volumeNames, none) ∧
        volumeNames.Sorted (· < ·) ∧
        ∀ k, k ∈ volumeNames ↔ (k ∈ data.keys ∧ U.ValidateName k = true)) ∧
    (∀ err : GoError, X.unmarshalVolumeNames output = .error err →
      parseBackupVolumeNamesList U X output =
        (none, some (.wrap err ("error parsing backup volume names: \n" ++ output)))) := by
  constructor
  · intro data hdec
    refine ⟨sortStrings (data.keys.filter U.ValidateName), ?_, ?_, ?_⟩
    · simp [parseBackupVolumeNamesList, hdec, foldl_append_filter]
    · exact sortStrings_strict _ (data.nodupKeys.filter _)
    · intro k
      simp [mem_sortStrings, List.mem_filter]
  · intro err hdec
    simp [parseBackupVolumeNamesList, hdec]

/-- Witness of C4 on the sample installation: the sample listing decodes, and the text
`not json` does not. -/
theorem parseBackupVolumeNamesList_sorted_valid_keys_witness :
    (∃ volumeNames : List String,
      parseBackupVolumeNamesList sampleUtil sampleExtern sampleVolumeNamesOutput =
        (some volumeNames, none) ∧
      volumeNames.Sorted (· < ·) ∧
      ∀ k, k ∈ volumeNames ↔ (k ∈ sampleVolumeNames.keys ∧ sampleUtil.ValidateName k = true)) ∧
    parseBackupVolumeNamesList sampleUtil sampleExtern "not json" =
      (none, some (.wrap (.msg "invalid character")
        ("error parsing backup volume names: \n" ++ "not json"))) :=
  ⟨(parseBackupVolumeNamesList_sorted_valid_keys sampleUtil sampleExtern
      sampleVolumeNamesOutput).1 sampleVolumeNames rfl,
   (parseBackupVolumeNamesList_sorted_valid_keys sampleUtil sampleExtern "not json").2
      (.msg "invalid character") rfl⟩

/-- The sample listing, evaluated: the key `bad name` is dropped and the rest is sorted. -/
theorem parseBackupVolumeNamesList_sample :
    parseBackupVolumeNamesList sampleUtil sampleExtern sampleVolumeNamesOutput =
      (some ["vol-a", "vol-b"], none) := by
  have hdec :
      sampleExtern.unmarshalVolumeNames sampleVolumeNamesOutput = .ok sampleVolumeNames := rfl
  simp [parseBackupVolumeNamesList, hdec, sampleVolumeNames, GoMap.keys, sampleUtil,
    sortStrings]
  decide

/-- C5: when the output decodes as a catalog that has no key for the requested volume,
`parseBackupNamesList` returns a `nil` list and the error
`cannot find the volume name <name> in the data`; it does not return the decode error
`error parsing backup names`. -/
theorem parseBackupNamesList_volume_absent (X : Extern) (output volumeName : String)
    (data : GoMap (Option BackupVolume))
    (hdec : X.unmarshalBackupVolumes output = .ok data)
    (habs : volumeName ∉ data.keys) :
    parseBackupNamesList X output volumeName =
        .returns (none,
          some (.msg ("cannot find the volume name " ++ volumeName ++ " in the data"))) ∧
      ∀ cause : GoError, parseBackupNamesList X output volumeName ≠
        .returns (none, some (.wrap cause ("error parsing backup names: \n" ++ output))) := by
  have hget : data.get? volumeName = none := (data.get?_eq_none_iff volumeName).2 habs
  have h : parseBackupNamesList X output volumeName =
      .returns (none,
        some (.msg ("cannot find the volume name " ++ volumeName ++ " in the data"))) := by
    simp [parseBackupNamesList, hdec, hget]
  refine ⟨h, ?_⟩
  intro cause
  rw [h]
  simp

/-- Witness of C5 on the sample installation: the catalog of `vol-a` asked for `vol-b`. -/
theorem parseBackupNamesList_volume_absent_witness :
    parseBackupNamesList sampleExtern sampleCatalogOutput "vol-b" =
      .returns (none, some (.msg "cannot find the volume name vol-b in the data")) :=
  (parseBackupNamesList_volume_absent sampleExtern sampleCatalogOutput "vol-b" sampleCatalog
    rfl (by decide)).1

/-- C6: when the entry of the requested volume carries a non-empty message under the error key,
`parseBackupNamesList` returns an empty, non-nil list and an error whose text is that message,
whatever the backups of the entry are. -/
theorem parseBackupNamesList_embedded_error (X : Extern) (output volumeName : String)
    (data : GoMap (Option BackupVolume)) (volumeData : BackupVolume)
    (messages : GoMap String) (message : String)
    (hdec : X.unmarshalBackupVolumes output = .ok data)
    (hget : data.get? volumeName = some (some volumeData))
    (hmsgs : volumeData.Messages = some messages)
    (hmsg : messages.get? X.MessageTypeError = some message)
    (hne : message ≠ "") :
    parseBackupNamesList X output volumeName = .returns (some [], some (.msg message)) := by
  have hidx : mapIndex volumeData.Messages X.MessageTypeError = message := by
    simp [hmsgs, mapIndex, hmsg]
  simp [parseBackupNamesList, hdec, hget, hidx, hne]

/-- Witness of C6 on the sample installation: the entry of `vol-c` has one backup and the error
message `volume.cfg is corrupt`. -/
theorem parseBackupNamesList_embedded_error_witness :
    parseBackupNamesList sampleExtern sampleFailedCatalogOutput "vol-c" =
      .returns (some [], some (.msg "volume.cfg is corrupt")) :=
  parseBackupNamesList_embedded_error sampleExtern sampleFailedCatalogOutput "vol-c"
    sampleFailedCatalog
    { Name := "vol-c"
      Messages := some ⟨[("error", "volume.cfg is corrupt")], by decide⟩
      Backups := some ⟨[("backup-9", none)], by decide⟩ }
    ⟨[("error", "volume.cfg is corrupt")], by decide⟩ "volume.cfg is corrupt"
    rfl rfl rfl rfl (by decide)

/-- C7, as stated, fails: the key `bad name!` of the backups mapping does not pass the
name-format rule, and `parseBackupNamesList` returns it among the backup names. -/
theorem parseBackupNamesList_keeps_invalid_name :
    parseBackupNamesList sampleExtern sampleCatalogOutput "vol-a" =
        .returns (some ["backup-1", "backup-2", "bad name!"], none) ∧
      sampleUtil.ValidateName "bad name!" = false := by
  constructor
  · have hdec :
        sampleExtern.unmarshalBackupVolumes sampleCatalogOutput = .ok sampleCatalog := rfl
    simp [parseBackupNamesList, hdec, sampleCatalog, GoMap.get?, GoMap.keys, rangeKeys,
      mapIndex, sortStrings]
    decide
  · decide

/-- C7, amended: when the catalog has a non-nil entry for the requested volume and the entry
carries no message under the error key, `parseBackupNamesList` returns no error and a strictly
ascending list whose elements are exactly the keys of the backups mapping of the entry; no key
is dropped and no name-format rule is applied. -/
theorem parseBackupNamesList_sorted_backup_keys (X : Extern) (output volumeName : String)
    (data : GoMap (Option BackupVolume)) (volumeData : BackupVolume)
    (hdec : X.unmarshalBackupVolumes output = .ok data)
    (hget : data.get? volumeName = some (some volumeData))
    (hmsg : mapIndex volumeData.Messages X.MessageTypeError = "") :
    ∃ backupNames : List String,
      parseBackupNamesList X output volumeName = .returns (some backupNames, none) ∧
      backupNames.Sorted (· < ·) ∧
      ∀ k, k ∈ backupNames ↔ k ∈ rangeKeys volumeData.Backups := by
  refine ⟨sortStrings (rangeKeys volumeData.Backups), ?_, ?_, ?_⟩
  · simp [parseBackupNamesList, hdec, hget, hmsg, foldl_append_each]
  · apply sortStrings_strict
    cases h : volumeData.Backups with
    | none => simp [rangeKeys]
    | some m => simpa [rangeKeys] using m.nodupKeys
  · intro k
    simp [mem_sortStrings]

/-- Witness of C7, amended, on the sample installation: the catalog of `vol-a`. -/
theorem parseBackupNamesList_sorted_backup_keys_witness :
    ∃ backupNames : List String,
      parseBackupNamesList sampleExtern sampleCatalogOutput "vol-a" =
        .returns (some backupNames, none) ∧
      backupNames.Sorted (· < ·) ∧
      ∀ k, k ∈ backupNames ↔ k ∈ ["backup-2", "bad name!", "backup-1"] :=
  parseBackupNamesList_sorted_backup_keys sampleExtern sampleCatalogOutput "vol-a"
    sampleCatalog
    { Name := "vol-a"
      Messages := none
      Backups := some ⟨[("backup-2", none), ("bad name!", none), ("backup-1", none)],
        by decide⟩ }
    rfl rfl rfl

/-- A run of `parseBackupNamesList` panics exactly when the output decodes and the entry of the
requested volume is present and is a `nil` pointer; in every other case the function returns. -/
theorem parseBackupNamesList_panics_iff (X : Extern) (output volumeName : String) :
    parseBackupNamesList X output volumeName = .panics ↔
      ∃ data, X.unmarshalBackupVolumes output = .ok data ∧
        data.get? volumeName = some none := by
  unfold parseBackupNamesList
  cases hdec : X.unmarshalBackupVolumes output with
  | error err => simp
  | ok data =>
    simp only
    cases hget : data.get? volumeName with
    | none => simp [hget]
    | some entry =>
      cases entry with
      | none => simp [hget]
      | some volumeData =>
        simp only
        split <;> simp [hget]

/-- An entry that has neither a messages nor a backups field is read without a panic: both maps
are `nil`, the index expression gives `""` and the loop visits nothing. -/
theorem parseBackupNamesList_nil_maps (X : Extern) (output volumeName : String)
    (data : GoMap (Option BackupVolume)) (volumeData : BackupVolume)
    (hdec : X.unmarshalBackupVolumes output = .ok data)
    (hget : data.get? volumeName = some (some volumeData))
    (hmsgs : volumeData.Messages = none) (hbackups : volumeData.Backups = none) :
    parseBackupNamesList X output volumeName = .returns (some [], none) := by
  simp [parseBackupNamesList, hdec, hget, hmsgs, hbackups, mapIndex, rangeKeys, sortStrings]

/-- C15 at the failing input: the output `{"vol-n":null}` decodes to a catalog whose entry for
`vol-n` is a `nil` pointer, and `parseBackupNamesList`, asked for `vol-n`, neither returns a list
nor an error: it panics on `volumeData.Messages`, and so does `BackupNameList`. On the entry of
`vol-e`, which has no messages and no backups field, it returns the empty list. -/
theorem parseBackupNamesList_null_entry_panics :
    sampleNullCatalog.get? "vol-n" = some none ∧
    parseBackupNamesList sampleExtern sampleNullCatalogOutput "vol-n" = .panics ∧
    sampleClient.BackupNameList sampleTypes sampleUtil sampleExtern "" "vol-n" none = .panics ∧
    parseBackupNamesList sampleExtern sampleBareCatalogOutput "vol-e" =
      .returns (some [], none) := by
  refine ⟨rfl, ?_, ?_, ?_⟩
  · exact (parseBackupNamesList_panics_iff sampleExtern sampleNullCatalogOutput "vol-n").2
      ⟨sampleNullCatalog, rfl, rfl⟩
  · have hrun : sampleClient.BackupNameList sampleTypes sampleUtil sampleExtern "" "vol-n" none =
        parseBackupNamesList sampleExtern sampleNullCatalogOutput "vol-n" := by
      decide
    rw [hrun]
    exact (parseBackupNamesList_panics_iff sampleExtern sampleNullCatalogOutput "vol-n").2
      ⟨sampleNullCatalog, rfl, rfl⟩
  · exact parseBackupNamesList_nil_maps sampleExtern sampleBareCatalogOutput "vol-e"
      sampleBareCatalog { Name := "vol-e", Messages := none, Backups := none } rfl rfl rfl rfl

/-! ## Theorems: the operations of the backup target client -/

/-- C8: `BackupDelete` and `BackupVolumeDelete` return no error when the run of the engine
binary succeeds and when it fails with an error that `types.ErrorIsNotFound` classifies as
not-found; when it fails with any other error they return that error wrapped with the context
of the operation. -/
theorem delete_not_found_is_success (T : Types) (U : Util) (X : Extern)
    (btc : BackupTargetClient) :
    (∀ (backupURL : String) (credential : Option (GoMap String)) (output : String),
      btc.ExecuteEngineBinaryWithoutTimeout T U X ["backup", "rm", backupURL] = (output, none) →
      btc.BackupDelete T U X backupURL credential = none) ∧
    (∀ (backupURL : String) (credential : Option (GoMap String)) (output : String)
        (err : GoError),
      btc.ExecuteEngineBinaryWithoutTimeout T U X ["backup", "rm", backupURL] =
        (output, some err) →
      (T.ErrorIsNotFound err = true → btc.BackupDelete T U X backupURL credential = none) ∧
      (T.ErrorIsNotFound err = false →
        btc.BackupDelete T U X backupURL credential =
          some (.wrap err ("error deleting backup " ++ backupURL)))) ∧
    (∀ (destURL volumeName : String) (credential : Option (GoMap String)) (output : String),
      btc.ExecuteEngineBinaryWithoutTimeout T U X
        ["backup", "rm", "--volume", volumeName, btc.URL] = (output, none) →
      btc.BackupVolumeDelete T U X destURL volumeName credential = none) ∧
    (∀ (destURL volumeName : String) (credential : Option (GoMap String)) (output : String)
        (err : GoError),
      btc.ExecuteEngineBinaryWithoutTimeout T U X
        ["backup", "rm", "--volume", volumeName, btc.URL] = (output, some err) →
      (T.ErrorIsNotFound err = true →
        btc.BackupVolumeDelete T U X destURL volumeName credential = none) ∧
      (T.ErrorIsNotFound err = false →
        btc.BackupVolumeDelete T U X destURL volumeName credential =
          some (.wrap err "error deleting backup volume"))) := by
  refine ⟨?_, ?_, ?_, ?_⟩
  · intro backupURL credential output h
    simp [BackupTargetClient.BackupDelete, h]
  · intro backupURL credential output err h
    constructor <;> intro hnf <;> simp [BackupTargetClient.BackupDelete, h, hnf]
  · intro destURL volumeName credential output h
    simp [BackupTargetClient.BackupVolumeDelete, h]
  · intro destURL volumeName credential output err h
    constructor <;> intro hnf <;> simp [BackupTargetClient.BackupVolumeDelete, h, hnf]

/-- Witness of C8 on the sample installation: for a backup and for a backup volume, a removal
that succeeds, one that finds nothing to remove, and one that is denied. -/
theorem delete_not_found_is_success_witness :
    (sampleClient.BackupDelete sampleTypes sampleUtil sampleExtern
        "s3://backupbucket@us-east-1/?backup=backup-1&volume=vol-a" none = none ∧
      sampleClient.BackupDelete sampleTypes sampleUtil sampleExtern
        "s3://backupbucket@us-east-1/?backup=backup-7&volume=vol-a" none = none ∧
      sampleClient.BackupDelete sampleTypes sampleUtil sampleExtern
        "s3://backupbucket@us-east-1/?backup=backup-2&volume=vol-a" none =
          some (.wrap (.msg "exit status 1: access denied")
            ("error deleting backup " ++
              "s3://backupbucket@us-east-1/?backup=backup-2&volume=vol-a"))) ∧
    (sampleClient.BackupVolumeDelete sampleTypes sampleUtil sampleExtern "" "vol-a" none = none ∧
      sampleClient.BackupVolumeDelete sampleTypes sampleUtil sampleExtern "" "vol-b" none
        = none ∧
      sampleClient.BackupVolumeDelete sampleTypes sampleUtil sampleExtern "" "vol-c" none =
        some (.wrap (.msg "exit status 1: access denied") "error deleting backup volume")) :=
  ⟨⟨(delete_not_found_is_success sampleTypes sampleUtil sampleExtern sampleClient).1
        "s3://backupbucket@us-east-1/?backup=backup-1&volume=vol-a" none "" (by decide),
     ((delete_not_found_is_success sampleTypes sampleUtil sampleExtern sampleClient).2.1
        "s3://backupbucket@us-east-1/?backup=backup-7&volume=vol-a" none ""
        (.msg "cannot find backup.cfg in backupstore") (by decide)).1 (by decide),
     ((delete_not_found_is_success sampleTypes sampleUtil sampleExtern sampleClient).2.1
        "s3://backupbucket@us-east-1/?backup=backup-2&volume=vol-a" none ""
        (.msg "exit status 1: access denied") (by decide)).2 (by decide)⟩,
   ⟨(delete_not_found_is_success sampleTypes sampleUtil sampleExtern sampleClient).2.2.1
        "" "vol-a" none "" (by decide),
     ((delete_not_found_is_success sampleTypes sampleUtil sampleExtern sampleClient).2.2.2
        "" "vol-b" none "" (.msg "cannot find volume.cfg in backupstore")
        (by decide)).1 (by decide),
     ((delete_not_found_is_success sampleTypes sampleUtil sampleExtern sampleClient).2.2.2
        "" "vol-c" none "" (.msg "exit status 1: access denied") (by decide)).2 (by decide)⟩⟩

/-- The four read operations that test `types.ErrorIsNotFound` return a `nil` result and no error
when the run of the engine binary fails with a not-found error, whatever the decoder is. -/
theorem read_not_found_is_benign (T : Types) (U : Util) (X : Extern)
    (btc : BackupTargetClient) (err : GoError) (hnf : T.ErrorIsNotFound err = true) :
    (∀ output, btc.ExecuteEngineBinary T U X ["backup", "ls", "--volume-only", btc.URL] =
        (output, some err) →
      btc.BackupVolumeNameList T U X = (none, none)) ∧
    (∀ destURL volumeName credential output,
      btc.ExecuteEngineBinary T U X ["backup", "ls", "--volume", volumeName, btc.URL] =
        (output, some err) →
      btc.BackupNameList T U X destURL volumeName credential = .returns (none, none)) ∧
    (∀ backupVolumeURL credential output,
      btc.ExecuteEngineBinary T U X ["backup", "inspect-volume", backupVolumeURL] =
        (output, some err) →
      btc.BackupVolumeGet T U X backupVolumeURL credential = (none, none)) ∧
    (∀ url credential output,
      btc.ExecuteEngineBinary T U X ["backup", "head", url] = (output, some err) →
      btc.BackupConfigMetaGet T U X url credential = (none, none)) := by
  refine ⟨?_, ?_, ?_, ?_⟩
  · intro output h
    simp [BackupTargetClient.BackupVolumeNameList, h, hnf]
  · intro destURL volumeName credential output h
    by_cases hv : volumeName = "" <;> simp [BackupTargetClient.BackupNameList, h, hnf, hv]
  · intro backupVolumeURL credential output h
    simp [BackupTargetClient.BackupVolumeGet, h, hnf]
  · intro url credential output h
    simp [BackupTargetClient.BackupConfigMetaGet, h, hnf]

/-- Whatever error the run of the engine binary fails with, not-found or not, `BackupGet`
returns it wrapped: the method does not test `types.ErrorIsNotFound`. -/
theorem BackupGet_wraps_every_error (T : Types) (U : Util) (X : Extern)
    (btc : BackupTargetClient) (backupConfigURL output : String)
    (credential : Option (GoMap String)) (err : GoError)
    (h : btc.ExecuteEngineBinary T U X ["backup", "inspect", backupConfigURL] =
      (output, some err)) :
    btc.BackupGet T U X backupConfigURL credential =
      (none, some (.wrap err ("error getting backup config " ++ backupConfigURL))) := by
  simp [BackupTargetClient.BackupGet, h]

/-- C9 at the failing input: the run of `backup inspect` for a backup that the store does not
hold fails with an error that is classified as not-found, and `BackupGet` returns that error,
wrapped, where the other read operations return no error. -/
theorem BackupGet_not_found_is_error :
    sampleClient.ExecuteEngineBinary sampleTypes sampleUtil sampleExtern
        ["backup", "inspect", "s3://backupbucket@us-east-1/?backup=backup-7&volume=vol-a"] =
      ("", some (.msg "cannot find backup.cfg in backupstore")) ∧
    sampleTypes.ErrorIsNotFound (.msg "cannot find backup.cfg in backupstore") = true ∧
    sampleClient.BackupGet sampleTypes sampleUtil sampleExtern
        "s3://backupbucket@us-east-1/?backup=backup-7&volume=vol-a" none =
      (none, some (.wrap (.msg "cannot find backup.cfg in backupstore")
        "error getting backup config s3://backupbucket@us-east-1/?backup=backup-7&volume=vol-a"))
      ∧
    sampleClient.BackupConfigMetaGet sampleTypes sampleUtil sampleExtern
        "s3://backupbucket@us-east-1/?backup=backup-7&volume=vol-a" none = (none, none) := by
  decide

/-! ## Theorems: the engine binary -/

/-- C10: when the snapshot name is the volume head name, `SnapshotBackup` returns an empty
backup ID, an empty replica address and the error `invalid operation: cannot backup <head>`,
and the call has no event: no snapshot lookup, no version query, no build of the credential
environment and no run of the engine binary. -/
theorem SnapshotBackup_rejects_volume_head (T : Types) (U : Util) (X : Extern)
    (cliVersionFour : Int) (e : EngineBinary) (engine : Option Engine)
    (backupName backupTarget backingImageName backingImageChecksum compressionMethod : String)
    (concurrentLimit : Int) (storageClassName : String)
    (labels credential parameters : Option (GoMap String)) :
    EngineBinary.SnapshotBackup T U X cliVersionFour e engine X.VolumeHeadName backupName
        backupTarget backingImageName backingImageChecksum compressionMethod concurrentLimit
        storageClassName labels credential parameters =
      (("", "", some (.msg ("invalid operation: cannot backup " ++ X.VolumeHeadName))), []) := by
  simp [EngineBinary.SnapshotBackup]

/-- Every run of the engine binary by `SnapshotBackup` comes after a snapshot lookup: a call
with no event reached neither of them. When the snapshot name is not the volume head name, the
first event of the call is the snapshot lookup. -/
theorem SnapshotBackup_looks_up_other_snapshots (T : Types) (U : Util) (X : Extern)
    (cliVersionFour : Int) (e : EngineBinary) (engine : Option Engine)
    (snapName backupName backupTarget backingImageName backingImageChecksum
      compressionMethod : String)
    (concurrentLimit : Int) (storageClassName : String)
    (labels credential parameters : Option (GoMap String))
    (h : snapName ≠ X.VolumeHeadName) :
    (EngineBinary.SnapshotBackup T U X cliVersionFour e engine snapName backupName
        backupTarget backingImageName backingImageChecksum compressionMethod concurrentLimit
        storageClassName labels credential parameters).2.head? =
      some (Event.snapshotGet snapName) := by
  unfold EngineBinary.SnapshotBackup
  simp only [h, if_false]
  cases e.SnapshotGet none snapName with
  | error err => simp
  | ok snap =>
    cases snap with
    | none => simp
    | some info =>
      simp only
      cases e.VersionGet none true with
      | error err => simp
      | ok version =>
        simp only
        split
        · simp
        · split <;> [simp; (split <;> simp)]

theorem foldl_label_args (l : List (String × String)) (init : List String) :
    l.foldl (fun args kv => args ++ ["--label", kv.1 ++ "=" ++ kv.2]) init
      = init ++ l.flatMap (fun kv => ["--label", kv.1 ++ "=" ++ kv.2]) := by
  induction l generalizing init with
  | nil => simp
  | cons a l ih => simp [List.foldl_cons, ih, List.flatMap_cons]

/-- The arguments `SnapshotBackup` builds by successive appends are the list the specification
gives. -/
theorem snapshotBackupArgs_eq_spec (cliVersionFour : Int) (version : EngineVersion)
    (snapName backupName backupTarget backingImageName backingImageChecksum : String)
    (labels : Option (GoMap String)) :
    EngineBinary.snapshotBackupArgs cliVersionFour version snapName backupName backupTarget
        backingImageName backingImageChecksum labels =
      specBackupCreateArgs cliVersionFour version.ClientVersion.CLIAPIVersion snapName
        backupName backupTarget backingImageName backingImageChecksum (rangeEntries labels) := by
  unfold EngineBinary.snapshotBackupArgs specBackupCreateArgs specBackingImageArgs
  simp only [foldl_label_args]
  rcases lt_or_ge cliVersionFour version.ClientVersion.CLIAPIVersion with h2 | h2 <;>
  by_cases h1 : backingImageName = "" <;>
  by_cases h3 : backingImageChecksum = "" <;>
  by_cases h4 : backupName = "" <;>
  first
    | simp [h1, h2, h3, h4, not_le.2 h2]
    | simp [h1, h2, h3, h4, not_lt.2 h2]

/-- C11: for a snapshot that is not the volume head and that the lookup resolves, a reported
version and a credential environment that builds, `SnapshotBackup` runs the engine binary with
the argument list of the specification: `backup create --dest` and the target, the
backing-image arguments, `--backup-name` and the name exactly when the name is non-empty and the
version is above `CLIVersionFour`, one `--label K=V` pair per label, and the snapshot name last.
What `SnapshotBackup` returns is what that run gives: its error, or the decode error of its
output, or the backup ID and replica address decoded from its output. The events of the call are
the lookup, the version query, the build of the environment and that one run. The
backing-image arguments are empty, or the name alone, or the name with the placeholder URL, or
the name with the checksum: the URL and the checksum never come together, and neither comes
without the name. -/
theorem SnapshotBackup_arguments (T : Types) (U : Util) (X : Extern) (cliVersionFour : Int)
    (e : EngineBinary) (engine : Option Engine)
    (snapName backupName backupTarget backingImageName backingImageChecksum
      compressionMethod : String)
    (concurrentLimit : Int) (storageClassName : String)
    (labels credential parameters : Option (GoMap String))
    (snap : SnapshotInfo) (version : EngineVersion) (envs : Option (List String))
    (hHead : snapName ≠ X.VolumeHeadName)
    (hSnap : e.SnapshotGet none snapName = .ok (some snap))
    (hVersion : e.VersionGet none true = .ok version)
    (hEnv : getBackupCredentialEnv T U backupTarget credential = (envs, none)) :
    (EngineBinary.SnapshotBackup T U X cliVersionFour e engine snapName backupName backupTarget
        backingImageName backingImageChecksum compressionMethod concurrentLimit
        storageClassName labels credential parameters).1 =
      (match e.ExecuteEngineBinaryWithoutTimeout (envs.getD [])
          (specBackupCreateArgs cliVersionFour version.ClientVersion.CLIAPIVersion snapName
            backupName backupTarget backingImageName backingImageChecksum
            (rangeEntries labels)) with
        | (_, some err) => ("", "", some err)
        | (output, none) =>
          match X.unmarshalBackupCreateInfo output with
          | .error err => ("", "", some err)
          | .ok backupCreateInfo =>
            (backupCreateInfo.BackupID, backupCreateInfo.ReplicaAddress, none)) ∧
    (EngineBinary.SnapshotBackup T U X cliVersionFour e engine snapName backupName backupTarget
        backingImageName backingImageChecksum compressionMethod concurrentLimit
        storageClassName labels credential parameters).2 =
      [Event.snapshotGet snapName, Event.versionGet true, Event.credentialEnv backupTarget,
        Event.executeWithoutTimeout (envs.getD [])
          (specBackupCreateArgs cliVersionFour version.ClientVersion.CLIAPIVersion snapName
            backupName backupTarget backingImageName backingImageChecksum
            (rangeEntries labels))] ∧
    (specBackingImageArgs cliVersionFour version.ClientVersion.CLIAPIVersion backingImageName
        backingImageChecksum = [] ∨
      specBackingImageArgs cliVersionFour version.ClientVersion.CLIAPIVersion backingImageName
        backingImageChecksum = ["--backing-image-name", backingImageName] ∨
      specBackingImageArgs cliVersionFour version.ClientVersion.CLIAPIVersion backingImageName
        backingImageChecksum =
          ["--backing-image-name", backingImageName, "--backing-image-url",
            "deprecated-field"] ∨
      specBackingImageArgs cliVersionFour version.ClientVersion.CLIAPIVersion backingImageName
        backingImageChecksum =
          ["--backing-image-name", backingImageName, "--backing-image-checksum",
            backingImageChecksum]) := by
  refine ⟨?_, ?_, ?_⟩
  · rw [← snapshotBackupArgs_eq_spec]
    unfold EngineBinary.SnapshotBackup
    simp only [hHead, if_false, hSnap, hVersion, hEnv]
    cases hx : e.ExecuteEngineBinaryWithoutTimeout (envs.getD [])
        (EngineBinary.snapshotBackupArgs cliVersionFour version snapName backupName
          backupTarget backingImageName backingImageChecksum labels) with
    | mk output err =>
      cases err with
      | some err => rfl
      | none =>
        simp only
        cases X.unmarshalBackupCreateInfo output <;> rfl
  · rw [← snapshotBackupArgs_eq_spec]
    unfold EngineBinary.SnapshotBackup
    simp only [hHead, if_false, hSnap, hVersion, hEnv]
    cases hx : e.ExecuteEngineBinaryWithoutTimeout (envs.getD [])
        (EngineBinary.snapshotBackupArgs cliVersionFour version snapName backupName
          backupTarget backingImageName backingImageChecksum labels) with
    | mk output err =>
      cases err with
      | some err => simp
      | none =>
        simp only
        cases X.unmarshalBackupCreateInfo output <;> simp
  · unfold specBackingImageArgs
    split
    · exact Or.inl rfl
    · split
      · exact Or.inr (Or.inr (Or.inl rfl))
      · split
        · exact Or.inr (Or.inl rfl)
        · exact Or.inr (Or.inr (Or.inr rfl))

/-- Witness of C11 on the sample installation: the snapshot `snap-1` with a backing image, a
checksum, a backup name and one label, on an engine binary that reports version 5. The run
answers with the backup `backup-3`. -/
theorem SnapshotBackup_arguments_witness :
    EngineBinary.SnapshotBackup sampleTypes sampleUtil sampleExtern sampleCLIVersionFour
        (sampleEngineBinary 5) none "snap-1" "backup-3" "s3://backupbucket@us-east-1/"
        "ubuntu" "sha512:0a1b" "lz4" 2 "longhorn"
        (some ⟨[("team", "infra")], by decide⟩) sampleClient.Credential none =
      (("backup-3", "tcp://10.42.0.7:10000", none),
        [Event.snapshotGet "snap-1", Event.versionGet true,
          Event.credentialEnv "s3://backupbucket@us-east-1/",
          Event.executeWithoutTimeout
            ["AWS_ENDPOINTS=", "AWS_CERT=", "HTTPS_PROXY=", "HTTP_PROXY=", "NO_PROXY=",
              "VIRTUAL_HOSTED_STYLE="]
            ["backup", "create", "--dest", "s3://backupbucket@us-east-1/",
              "--backing-image-name", "ubuntu", "--backing-image-checksum", "sha512:0a1b",
              "--backup-name", "backup-3", "--label", "team=infra", "snap-1"]]) :=
  Prod.ext
    ((SnapshotBackup_arguments sampleTypes sampleUtil sampleExtern sampleCLIVersionFour
      (sampleEngineBinary 5) none "snap-1" "backup-3" "s3://backupbucket@us-east-1/"
      "ubuntu" "sha512:0a1b" "lz4" 2 "longhorn"
      (some ⟨[("team", "infra")], by decide⟩) sampleClient.Credential none
      ⟨"snap-1"⟩ ⟨⟨5⟩⟩
      (some ["AWS_ENDPOINTS=", "AWS_CERT=", "HTTPS_PROXY=", "HTTP_PROXY=", "NO_PROXY=",
        "VIRTUAL_HOSTED_STYLE="])
      (by decide) rfl rfl (by decide)).1.trans (by decide))
    ((SnapshotBackup_arguments sampleTypes sampleUtil sampleExtern sampleCLIVersionFour
      (sampleEngineBinary 5) none "snap-1" "backup-3" "s3://backupbucket@us-east-1/"
      "ubuntu" "sha512:0a1b" "lz4" 2 "longhorn"
      (some ⟨[("team", "infra")], by decide⟩) sampleClient.Credential none
      ⟨"snap-1"⟩ ⟨⟨5⟩⟩
      (some ["AWS_ENDPOINTS=", "AWS_CERT=", "HTTPS_PROXY=", "HTTP_PROXY=", "NO_PROXY=",
        "VIRTUAL_HOSTED_STYLE="])
      (by decide) rfl rfl (by decide)).2.1.trans (by decide))

/-- C12: when the run of the engine binary by `BackupRestore` fails with the error `err` and the
output `out`, `BackupRestore` returns the decoded `TaskError` if `out` decodes as one, and `err`
itself, not the decode error, if `out` does not decode; when the run succeeds it returns no
error. The run takes place once the credential environment of the target is built. -/
theorem BackupRestore_error_handling (T : Types) (U : Util) (X : Extern) (e : EngineBinary)
    (engine : Option Engine) (backupTarget backupName backupVolumeName lastRestored : String)
    (credential : Option (GoMap String)) (concurrentLimit : Int)
    (envs : Option (List String)) (out : String)
    (hEnv : getBackupCredentialEnv T U backupTarget credential = (envs, none)) :
    (∀ err : GoError,
      e.ExecuteEngineBinaryWithoutTimeout (envs.getD [])
          (["backup", "restore", X.EncodeBackupURL backupName backupVolumeName backupTarget]
            ++ (if lastRestored ≠ "" then ["--incrementally", "--last-restored", lastRestored]
                else [])) = (out, some err) →
      (∀ taskErr, X.unmarshalTaskError out = .ok taskErr →
        (EngineBinary.BackupRestore T U X e engine backupTarget backupName backupVolumeName
          lastRestored credential concurrentLimit).1 = some (.task taskErr)) ∧
      (∀ jsonErr, X.unmarshalTaskError out = .error jsonErr →
        (EngineBinary.BackupRestore T U X e engine backupTarget backupName backupVolumeName
          lastRestored credential concurrentLimit).1 = some err)) ∧
    (e.ExecuteEngineBinaryWithoutTimeout (envs.getD [])
          (["backup", "restore", X.EncodeBackupURL backupName backupVolumeName backupTarget]
            ++ (if lastRestored ≠ "" then ["--incrementally", "--last-restored", lastRestored]
                else [])) = (out, none) →
      (EngineBinary.BackupRestore T U X e engine backupTarget backupName backupVolumeName
          lastRestored credential concurrentLimit).1 = none) := by
  have hargs : (if lastRestored ≠ "" then
        ["backup", "restore", X.EncodeBackupURL backupName backupVolumeName backupTarget]
          ++ ["--incrementally", "--last-restored", lastRestored]
      else ["backup", "restore", X.EncodeBackupURL backupName backupVolumeName backupTarget]) =
      ["backup", "restore", X.EncodeBackupURL backupName backupVolumeName backupTarget]
        ++ (if lastRestored ≠ "" then ["--incrementally", "--last-restored", lastRestored]
            else []) := by
    by_cases h : lastRestored = "" <;> simp [h]
  refine ⟨fun err hExec => ⟨fun taskErr hDec => ?_, fun jsonErr hDec => ?_⟩, fun hExec => ?_⟩
  · unfold EngineBinary.BackupRestore
    simp only [hEnv, hargs, hExec, hDec]
  · unfold EngineBinary.BackupRestore
    simp only [hEnv, hargs, hExec, hDec]
  · unfold EngineBinary.BackupRestore
    simp only [hEnv, hargs, hExec]

/-- Witness of C12 on the sample installation: the restore of `backup-2` fails on one replica
with a `TaskError` on the output, the restore of `backup-9` fails with plain text on the output,
and the restore of `backup-1` succeeds. -/
theorem BackupRestore_error_handling_witness :
    (EngineBinary.BackupRestore sampleTypes sampleUtil sampleExtern (sampleEngineBinary 5) none
        "s3://backupbucket@us-east-1/" "backup-2" "vol-a" "" sampleClient.Credential 2).1 =
      some (.task [("tcp://10.42.0.7:10000", "no space left on device")]) ∧
    (EngineBinary.BackupRestore sampleTypes sampleUtil sampleExtern (sampleEngineBinary 5) none
        "s3://backupbucket@us-east-1/" "backup-9" "vol-a" "backup-1" sampleClient.Credential
        2).1 = some (.msg "exit status 1") ∧
    (EngineBinary.BackupRestore sampleTypes sampleUtil sampleExtern (sampleEngineBinary 5) none
        "s3://backupbucket@us-east-1/" "backup-1" "vol-a" "" sampleClient.Credential 2).1 =
      none :=
  ⟨((BackupRestore_error_handling sampleTypes sampleUtil sampleExtern (sampleEngineBinary 5)
        none "s3://backupbucket@us-east-1/" "backup-2" "vol-a" "" sampleClient.Credential 2
        (some ["AWS_ENDPOINTS=", "AWS_CERT=", "HTTPS_PROXY=", "HTTP_PROXY=", "NO_PROXY=",
          "VIRTUAL_HOSTED_STYLE="])
        sampleTaskErrorOutput (by decide)).1 (.msg "exit status 1") (by decide)).1
      sampleTaskError rfl,
   ((BackupRestore_error_handling sampleTypes sampleUtil sampleExtern (sampleEngineBinary 5)
        none "s3://backupbucket@us-east-1/" "backup-9" "vol-a" "backup-1"
        sampleClient.Credential 2
        (some ["AWS_ENDPOINTS=", "AWS_CERT=", "HTTPS_PROXY=", "HTTP_PROXY=", "NO_PROXY=",
          "VIRTUAL_HOSTED_STYLE="])
        "cannot find backup.cfg in backupstore" (by decide)).1 (.msg "exit status 1")
        (by decide)).2 (.msg "invalid character") rfl,
   (BackupRestore_error_handling sampleTypes sampleUtil sampleExtern (sampleEngineBinary 5)
        none "s3://backupbucket@us-east-1/" "backup-1" "vol-a" "" sampleClient.Credential 2
        (some ["AWS_ENDPOINTS=", "AWS_CERT=", "HTTPS_PROXY=", "HTTP_PROXY=", "NO_PROXY=",
          "VIRTUAL_HOSTED_STYLE="])
        "" (by decide)).2 (by decide)⟩

/-- C13: `SnapshotBackupStatus` runs the engine binary with `backup status` and the backup
identifier, then `--replica` and the address exactly when the address is non-empty, then
`--replica-instance-name` and the replica name exactly when the name is non-empty and the
reported client API version is at least 9. What it returns is what that run gives: its error, or
the decode error of its output, or the decoded status. With an empty replica name the version is
not queried: the run is the only event. With a non-empty name and a version below 9 the run
still takes place, without the replica name. -/
theorem SnapshotBackupStatus_arguments (X : Extern) (e : EngineBinary)
    (engine : Option Engine) (backupName replicaAddress replicaName : String) :
    (replicaName = "" →
      (EngineBinary.SnapshotBackupStatus X e engine backupName replicaAddress replicaName).1 =
        (match e.ExecuteEngineBinary (["backup", "status", backupName]
            ++ (if replicaAddress ≠ "" then ["--replica", replicaAddress] else [])) with
          | (_, some err) => (none, some err)
          | (output, none) =>
            match X.unmarshalEngineBackupStatus output with
            | .error err => (none, some err)
            | .ok engineBackupStatus => (some engineBackupStatus, none)) ∧
      (EngineBinary.SnapshotBackupStatus X e engine backupName replicaAddress replicaName).2 =
        [Event.execute (["backup", "status", backupName]
          ++ (if replicaAddress ≠ "" then ["--replica", replicaAddress] else []))]) ∧
    (∀ version : EngineVersion, replicaName ≠ "" →
      e.VersionGet engine true = .ok version →
      (EngineBinary.SnapshotBackupStatus X e engine backupName replicaAddress replicaName).1 =
        (match e.ExecuteEngineBinary (["backup", "status", backupName]
            ++ (if replicaAddress ≠ "" then ["--replica", replicaAddress] else [])
            ++ (if version.ClientVersion.CLIAPIVersion ≥ 9 then
                  ["--replica-instance-name", replicaName]
                else [])) with
          | (_, some err) => (none, some err)
          | (output, none) =>
            match X.unmarshalEngineBackupStatus output with
            | .error err => (none, some err)
            | .ok engineBackupStatus => (some engineBackupStatus, none)) ∧
      (EngineBinary.SnapshotBackupStatus X e engine backupName replicaAddress replicaName).2 =
        [Event.versionGet true,
          Event.execute (["backup", "status", backupName]
            ++ (if replicaAddress ≠ "" then ["--replica", replicaAddress] else [])
            ++ (if version.ClientVersion.CLIAPIVersion ≥ 9 then
                  ["--replica-instance-name", replicaName]
                else []))]) := by
  constructor
  · intro hName
    unfold EngineBinary.SnapshotBackupStatus
    simp only [hName, ne_eq, not_true_eq_false, if_false]
    by_cases hAddr : replicaAddress = "" <;> simp only [hAddr, ne_eq, not_true_eq_false,
      not_false_eq_true, if_true, if_false, List.append_nil, List.cons_append,
      List.nil_append] <;>
    · split
      · exact ⟨rfl, by simp⟩
      · split <;> exact ⟨rfl, by simp⟩
  · intro version hName hVersion
    unfold EngineBinary.SnapshotBackupStatus
    simp only [if_pos hName, hVersion]
    by_cases hAddr : replicaAddress = "" <;>
    by_cases hv : version.ClientVersion.CLIAPIVersion ≥ 9 <;>
    simp only [hAddr, hv, ne_eq, not_true_eq_false, not_false_eq_true, if_true, if_false,
      List.append_nil, List.cons_append, List.nil_append] <;>
    · split
      · exact ⟨rfl, by simp⟩
      · split <;> exact ⟨rfl, by simp⟩

/-- Witness of C13 on the sample installation: no replica name; a replica name on an engine
binary of version 9; a replica name on an engine binary of version 8, which does not know
`--replica-instance-name` and is run without it. All three runs answer the sample status. -/
theorem SnapshotBackupStatus_arguments_witness :
    EngineBinary.SnapshotBackupStatus sampleExtern (sampleEngineBinary 9) none "backup-3"
        "tcp://10.42.0.7:10000" "" =
      ((some sampleStatus, none),
        [Event.execute
          ["backup", "status", "backup-3", "--replica", "tcp://10.42.0.7:10000"]]) ∧
    EngineBinary.SnapshotBackupStatus sampleExtern (sampleEngineBinary 9) none "backup-3"
        "tcp://10.42.0.7:10000" "vol-a-r-1" =
      ((some sampleStatus, none),
        [Event.versionGet true,
          Event.execute ["backup", "status", "backup-3", "--replica", "tcp://10.42.0.7:10000",
            "--replica-instance-name", "vol-a-r-1"]]) ∧
    EngineBinary.SnapshotBackupStatus sampleExtern (sampleEngineBinary 8) none "backup-3" ""
        "vol-a-r-1" =
      ((some sampleStatus, none),
        [Event.versionGet true, Event.execute ["backup", "status", "backup-3"]]) :=
  ⟨Prod.ext
      (((SnapshotBackupStatus_arguments sampleExtern (sampleEngineBinary 9) none "backup-3"
        "tcp://10.42.0.7:10000" "").1 rfl).1.trans (by decide))
      (((SnapshotBackupStatus_arguments sampleExtern (sampleEngineBinary 9) none "backup-3"
        "tcp://10.42.0.7:10000" "").1 rfl).2.trans (by decide)),
   Prod.ext
      (((SnapshotBackupStatus_arguments sampleExtern (sampleEngineBinary 9) none "backup-3"
        "tcp://10.42.0.7:10000" "vol-a-r-1").2 ⟨⟨9⟩⟩ (by decide) rfl).1.trans (by decide))
      (((SnapshotBackupStatus_arguments sampleExtern (sampleEngineBinary 9) none "backup-3"
        "tcp://10.42.0.7:10000" "vol-a-r-1").2 ⟨⟨9⟩⟩ (by decide) rfl).2.trans (by decide)),
   Prod.ext
      (((SnapshotBackupStatus_arguments sampleExtern (sampleEngineBinary 8) none "backup-3" ""
        "vol-a-r-1").2 ⟨⟨8⟩⟩ (by decide) rfl).1.trans (by decide))
      (((SnapshotBackupStatus_arguments sampleExtern (sampleEngineBinary 8) none "backup-3" ""
        "vol-a-r-1").2 ⟨⟨8⟩⟩ (by decide) rfl).2.trans (by decide))⟩

/-- C14: `ConvertEngineBackupState` returns `InProgress` exactly for `in_progress`, `Completed`
exactly for `complete`, `Error` exactly for `error`, and `Unknown` for every other string, among
them the empty string, `bogus`, and variants of the three strings in case or white space. -/
theorem ConvertEngineBackupState_total (state : String) :
    (ConvertEngineBackupState state = .InProgress ↔ state = "in_progress") ∧
    (ConvertEngineBackupState state = .Completed ↔ state = "complete") ∧
    (ConvertEngineBackupState state = .Error ↔ state = "error") ∧
    (ConvertEngineBackupState state = .Unknown ↔
      state ≠ "in_progress" ∧ state ≠ "complete" ∧ state ≠ "error") ∧
    ConvertEngineBackupState "" = .Unknown ∧
    ConvertEngineBackupState "bogus" = .Unknown ∧
    ConvertEngineBackupState "In_Progress" = .Unknown ∧
    ConvertEngineBackupState "COMPLETE" = .Unknown ∧
    ConvertEngineBackupState "completed" = .Unknown ∧
    ConvertEngineBackupState " error" = .Unknown ∧
    ConvertEngineBackupState "error\n" = .Unknown := by
  refine ⟨?_, ?_, ?_, ?_, by decide, by decide, by decide, by decide, by decide, by decide,
    by decide⟩ <;>
  · unfold ConvertEngineBackupState backupStateInProgress backupStateComplete backupStateError
    by_cases h1 : state = "in_progress"
    · subst h1
      decide
    · by_cases h2 : state = "complete"
      · subst h2
        decide
      · by_cases h3 : state = "error"
        · subst h3
          decide
        · simp [h1, h2, h3]

end Longhorn
